/-
  Formal verification of the MemorialTube core pipeline
  (canvas compositor, transition generator, pipeline orchestrator).

  Shallow embedding notes:
  * Raster buffers (numpy uint8 HxWx3 arrays) are modelled as `Img`:
    explicit height/width plus a pixel function into `Px`, a triple of
    `Fin 256` channels (BGR order, as in the source).
  * Mask buffers (uint8 HxW) are `Mask`; a pixel is active iff its value
    is positive, exactly as the source tests `mask > 0`.
  * Python float arithmetic is idealised as exact rational arithmetic
    (`ℚ`); `astype(np.uint8)` after `np.clip` is floor-truncation,
    `np.round` is modelled with `round`. No claim proved here depends on
    float rounding behaviour.
  * External collaborators (PIL decode/resize/blur, the object detector,
    the diffusion models, the ffmpeg encoder) are out of scope per spec
    §1/§6 and enter as function parameters.
-/
import Mathlib

set_option maxHeartbeats 1000000

/-- One BGR pixel: three uint8 channels, as in the numpy arrays of the source. -/
structure Px where
  c0 : Fin 256
  c1 : Fin 256
  c2 : Fin 256
deriving DecidableEq, Repr

/-- The all-zero (black) pixel. -/
def pxZero : Px := ⟨0, 0, 0⟩

instance : Inhabited Px := ⟨pxZero⟩

/-- A raster image buffer: height, width and a total pixel function
(out-of-range coordinates are never relevant to the semantics). -/
structure Img where
  h : Nat
  w : Nat
  pix : Nat → Nat → Px

instance : Inhabited Img := ⟨⟨0, 0, fun _ _ => pxZero⟩⟩

/-- A uint8 mask buffer; the source only ever tests `mask > 0`. -/
structure Mask where
  h : Nat
  w : Nat
  val : Nat → Nat → Nat

/-- Result record of a safety validator (`SafetyCheckResult` in
`app/canvas/safety.py`). -/
structure SafetyCheckResult where
  passed : Bool
  reason : Option String
deriving DecidableEq, Repr

/-- A detector bounding box (`Detection` in `app/canvas/detector.py`).
Confidence is idealised as a rational. -/
structure Detection where
  label : String
  confidence : ℚ
  x1 : Int
  y1 : Int
  x2 : Int
  y2 : Int

/-- The animal-detector capability (`AnimalDetector` protocol):
an availability flag and a detection function. The reference
`NullAnimalDetector` is `⟨false, fun _ => []⟩`. -/
structure AnimalDetector where
  available : Bool
  detect : Img → List Detection

/-- `NullAnimalDetector`: reports unavailable and detects nothing. -/
def nullAnimalDetector : AnimalDetector := ⟨false, fun _ => []⟩

/-- Python's `str.strip()`: drop leading and trailing whitespace.
Implemented by structural recursion on the character list so that string
literals reduce in the kernel (`String.trim` is defined by well-founded
recursion and does not). -/
def pyStrip (s : String) : String :=
  ⟨((s.data.dropWhile Char.isWhitespace).reverse.dropWhile Char.isWhitespace).reverse⟩

/-- Python's `str.lower().strip()` as used for provider/style selection. -/
def pyLowerStrip (s : String) : String := pyStrip ⟨s.data.map Char.toLower⟩

/-- `a / b` on naturals as an exact rational, via `mkRat` (the library's
rational division is irreducible and would not reduce in the kernel). -/
def ratDivNat (a b : Nat) : ℚ := mkRat a b

/-- Python's float `min` on exact rationals. -/
def ratMin (a b : ℚ) : ℚ := if a ≤ b then a else b

/-- Python's float `max` on exact rationals. -/
def ratMax (a b : ℚ) : ℚ := if a ≤ b then b else a

/-- Rational multiplication written on `num`/`den` via `mkRat`, equal to
`a * b` but kernel-reducible. -/
def qMul (a b : ℚ) : ℚ := mkRat (a.num * b.num) (a.den * b.den)

/-- Python's `round` on an exact rational, idealised as round-half-up
`⌊q + 1/2⌋` and written with `Int.fdiv` so it reduces in the kernel
(Python floats round halves to even; no claim depends on exact halves). -/
def pyRound (q : ℚ) : ℤ := Int.fdiv (2 * q.num + q.den) (2 * q.den)

/-- Absolute difference of two uint8 channels. -/
def chanDiff (a b : Fin 256) : Nat := ((a.val : Int) - (b.val : Int)).natAbs

/-- Per-pixel absolute difference, max over the three channels
(`diff.max(axis=2)` in `_count_changed_pixels`). -/
def pxMaxDiff (p q : Px) : Nat :=
  max (chanDiff p.c0 q.c0) (max (chanDiff p.c1 q.c1) (chanDiff p.c2 q.c2))

/-- The index grid of a mask, as a finite set of (row, column) pairs. -/
def maskGrid (m : Mask) : Finset (Nat × Nat) :=
  (Finset.range m.h) ×ˢ (Finset.range m.w)

/-- Number of active (`> 0`) pixels of a mask: `int((mask > 0).sum())`. -/
def activeCount (m : Mask) : Nat :=
  ((maskGrid m).filter (fun p => 0 < m.val p.1 p.2)).card

/-- Number of pixels that are active in `m` and whose max-channel absolute
difference between `base` and `cand` exceeds `thr`
(the `changed` count of `_count_changed_pixels`). -/
def changedCount (base cand : Img) (m : Mask) (thr : Nat) : Nat :=
  ((maskGrid m).filter
    (fun p => 0 < m.val p.1 p.2 ∧ thr < pxMaxDiff (base.pix p.1 p.2) (cand.pix p.1 p.2))).card

/-- `_count_changed_pixels` of `app/canvas/safety.py`: shape guards raise
`ValueError` (modelled as `Except.error`), then the changed/total counts. -/
def countChangedPixels (base cand : Img) (m : Mask) (thr : Nat) :
    Except String (Nat × Nat) :=
  if base.h = cand.h ∧ base.w = cand.w then
    if m.h = base.h ∧ m.w = base.w then
      .ok (changedCount base cand m thr, activeCount m)
    else .error "mask shape mismatch"
  else .error "base_image_bgr and candidate_image_bgr shape mismatch"

/-- `check_protected_region_unchanged` of `app/canvas/safety.py`.
`maxChanged` is the `max_changed_ratio` parameter (default 0.001), `thr`
the `diff_threshold` (default 8). The numeric detail of the failure
message is elided; the message constants are kept. -/
def checkProtectedRegionUnchanged (base cand : Img) (m : Mask)
    (maxChanged : ℚ) (thr : Nat) : Except String SafetyCheckResult :=
  match countChangedPixels base cand m thr with
  | .error e => .error e
  | .ok (changed, total) =>
    if total = 0 then
      .ok ⟨false, some "protected mask is empty"⟩
    else if maxChanged < mkRat changed total then
      .ok ⟨false, some "protected region changed too much"⟩
    else
      .ok ⟨true, none⟩

/-- Active pixels of `m` inside the half-open rectangle
`[y1, y2) × [x1, x2)` — the `region = generation_mask[y1:y2, x1:x2]` slice. -/
def activeCountRect (m : Mask) (y1 y2 x1 x2 : Nat) : Nat :=
  (((Finset.Ico y1 y2) ×ˢ (Finset.Ico x1 x2)).filter
    (fun p => 0 < m.val p.1 p.2)).card

/-- Scan of the detection list inside `check_no_new_animals_in_generated_region`:
clip each box to the image, skip empty boxes, fail if the box overlaps an
active generation-mask pixel. -/
def animalScan (cand : Img) (genMask : Mask) : List Detection → SafetyCheckResult
  | [] => ⟨true, none⟩
  | d :: rest =>
    let w : Int := cand.w
    let h : Int := cand.h
    let x1 := max 0 (min d.x1 (w - 1))
    let y1 := max 0 (min d.y1 (h - 1))
    let x2 := max 0 (min d.x2 w)
    let y2 := max 0 (min d.y2 h)
    if x2 ≤ x1 ∨ y2 ≤ y1 then
      animalScan cand genMask rest
    else if 0 < activeCountRect genMask y1.toNat y2.toNat x1.toNat x2.toNat then
      ⟨false, some ("new animal detected in generated region: " ++ d.label)⟩
    else
      animalScan cand genMask rest

/-- `check_no_new_animals_in_generated_region` of `app/canvas/safety.py`. -/
def checkNoNewAnimals (cand : Img) (genMask : Mask) (det : AnimalDetector)
    (strictMode : Bool) : SafetyCheckResult :=
  if genMask.h = cand.h ∧ genMask.w = cand.w then
    if ¬ det.available then
      if strictMode ∧ 0 < activeCount genMask then
        ⟨false, some "animal detector unavailable in strict mode"⟩
      else
        ⟨true, none⟩
    else
      animalScan cand genMask (det.detect cand)
  else ⟨false, some "generation mask shape mismatch"⟩

/-- Value of `np.linspace a b n` at position `k` (`endpoint=True`);
`np.linspace a b 1 = [a]`. -/
def linspaceAt (a b : ℚ) (n k : Nat) : ℚ :=
  if n ≤ 1 then a else a + (b - a) * (k : ℚ) / ((n : ℚ) - 1)

/-- Clamp an integer into a uint8 channel (`np.clip(·, 0, 255)`). -/
def clamp255 (z : Int) : Fin 256 :=
  ⟨(min 255 (max 0 z)).toNat, by
    have h1 : min 255 (max 0 z) ≤ 255 := min_le_left _ _
    have h2 : (0 : Int) ≤ min 255 (max 0 z) := le_min (by norm_num) (le_max_left _ _)
    omega⟩

/-- `np.round` then `np.clip(·,0,255)` then `astype(np.uint8)` on one channel. -/
def chanRound (q : ℚ) : Fin 256 := clamp255 (round q)

/-- `np.clip(·,0,255)` then `astype(np.uint8)` (floor truncation) on one channel. -/
def chanFloor (q : ℚ) : Fin 256 := clamp255 ⌊q⌋

/-- Rounded affine mix `(1-t)·a + t·b` of two channels. -/
def chanMixRound (a b : Fin 256) (t : ℚ) : Fin 256 :=
  chanRound ((1 - t) * (a.val : ℚ) + t * (b.val : ℚ))

/-- Floor-truncated affine mix `(1-t)·a + t·b` of two channels. -/
def chanMixFloor (a b : Fin 256) (t : ℚ) : Fin 256 :=
  chanFloor ((1 - t) * (a.val : ℚ) + t * (b.val : ℚ))

/-- Rounded affine pixel mix (used by `_compose_center` and
`_harmonize_generated_region`, which round before the uint8 cast). -/
def pxMixRound (p q : Px) (t : ℚ) : Px :=
  ⟨chanMixRound p.c0 q.c0 t, chanMixRound p.c1 q.c1 t, chanMixRound p.c2 q.c2 t⟩

/-- Floor-truncated affine pixel mix (used by `_blend` of
`app/video/transition.py`, which casts without rounding). -/
def pxMixFloor (p q : Px) (t : ℚ) : Px :=
  ⟨chanMixFloor p.c0 q.c0 t, chanMixFloor p.c1 q.c1 t, chanMixFloor p.c2 q.c2 t⟩

/-- `_blend` of `app/video/transition.py`: clamp alpha, cross-dissolve,
clip and cast to uint8. -/
def blendImg (a b : Img) (alpha : ℚ) : Img :=
  let t := min 1 (max 0 alpha)
  ⟨a.h, a.w, fun y x => pxMixFloor (a.pix y x) (b.pix y x) t⟩

/-- The horizontal seam-difference samples of
`check_generation_boundary_continuity`: max-channel absolute difference of
each horizontally adjacent pair crossing generation→protected
(`left_pairs`) or protected→generation (`right_pairs`), left samples first
as in the `np.concatenate` of the source. -/
def boundaryPairValues (cand : Img) (prot gen : Mask) : List ℚ :=
  let diffAt : Nat → Nat → ℚ := fun y x =>
    (pxMaxDiff (cand.pix y x) (cand.pix y (x + 1)) : ℚ)
  let leftVals := (List.range cand.h).flatMap (fun y =>
    (List.range (cand.w - 1)).filterMap (fun x =>
      if 0 < gen.val y x ∧ 0 < prot.val y (x + 1) then some (diffAt y x) else none))
  let rightVals := (List.range cand.h).flatMap (fun y =>
    (List.range (cand.w - 1)).filterMap (fun x =>
      if 0 < prot.val y x ∧ 0 < gen.val y (x + 1) then some (diffAt y x) else none))
  leftVals ++ rightVals

/-- `np.percentile(vals, p)` with the default linear interpolation. -/
def percentileLinear (vals : List ℚ) (p : ℚ) : ℚ :=
  let sorted := vals.mergeSort (· ≤ ·)
  let n := sorted.length
  if n = 0 then 0
  else
    let pos : ℚ := (p / 100) * ((n : ℚ) - 1)
    let i : Nat := (⌊pos⌋).toNat
    let lo := sorted.getD i 0
    let hi := sorted.getD (min (i + 1) (n - 1)) 0
    lo + (pos - (⌊pos⌋ : ℚ)) * (hi - lo)

/-- `check_generation_boundary_continuity` of `app/canvas/safety.py`
(mean and 95th percentile of seam discontinuities, exempt below
`minPairCount` samples). Failure-message numerics are elided. -/
def checkGenerationBoundaryContinuity (cand : Img) (prot gen : Mask)
    (maxMeanDiff maxP95Diff : ℚ) (minPairCount : Nat) : SafetyCheckResult :=
  if ¬ (prot.h = cand.h ∧ prot.w = cand.w) then
    ⟨false, some "protected mask shape mismatch"⟩
  else if ¬ (gen.h = cand.h ∧ gen.w = cand.w) then
    ⟨false, some "generation mask shape mismatch"⟩
  else if cand.h = 0 ∨ cand.w < 2 then ⟨true, none⟩
  else if activeCount gen = 0 then ⟨true, none⟩
  else
    let vals := boundaryPairValues cand prot gen
    if vals.length = 0 then ⟨true, none⟩
    else if vals.length < minPairCount then ⟨true, none⟩
    else
      let meanDiff := vals.sum / (vals.length : ℚ)
      let p95 := percentileLinear vals 95
      if meanDiff > maxMeanDiff ∨ p95 > maxP95Diff then
        ⟨false, some "generation boundary mismatch"⟩
      else ⟨true, none⟩

/-- `check_generated_region_naturalness` compares irrational-valued
statistics (standard deviations, `np.hypot` gradient magnitudes and their
norms) of the generated band against a protected reference band. Those
statistics are not rational-representable, and no claim under proof
depends on the check's internal arithmetic, so the check enters the
compositor as an abstract total pass/fail function of the same shape. -/
abbrev NaturalnessCheck := Img → Mask → Mask → SafetyCheckResult

/-- `Placement` of `app/canvas/pipeline.py`: the rectangle where the
resized photo is pasted. -/
structure Placement where
  x : Nat
  y : Nat
  width : Nat
  height : Nat
deriving DecidableEq, Repr

/-- The process-wide `Settings` of `app/config.py` restricted to the
fields the core reads. The last three fields (`canvas_background_style`,
`canvas_background_blur_radius`, `canvas_edge_blend_px`) are read by
`app/canvas/pipeline.py` but their declarations are absent from the
`Settings` class in `src/app/config.py`; they are modelled from the spec:
§6 names the background composition style and §4.3 the seam blend width
among the read-only configuration. -/
structure Settings where
  target_width : Nat
  target_height : Nat
  target_fps : Nat
  strict_safety_checks : Bool
  outpaint_min_width_for_generation : Nat
  outpaint_max_attempts : Nat
  transition_max_attempts : Nat
  outpaint_provider : String
  outpaint_num_inference_steps : Nat
  animal_detector_provider : String
  transition_provider : String
  transition_generation_step : Int
  transition_allowed_extra_animals : Int
  transition_safety_sample_step : Int
  canvas_background_style : String
  canvas_background_blur_radius : Int
  canvas_edge_blend_px : Int

/-- The external imaging primitives (PIL decode, LANCZOS resize, Gaussian
blur): out-of-scope collaborators, modelled as abstract pixel producers.
The geometry (output dimensions) is fixed structurally; only pixel content
is abstract. -/
structure PilOps where
  decode : String → Img
  resizePix : Img → Nat → Nat → Nat → Nat → Px
  blurPix : Img → Nat → Nat → Nat → Px

/-- PIL `resize((w, h))`: requested dimensions, abstract content. -/
def pilResize (ops : PilOps) (src : Img) (w h : Nat) : Img :=
  ⟨h, w, fun y x => ops.resizePix src w h y x⟩

/-- PIL `GaussianBlur(radius)`: same dimensions, abstract content. -/
def pilBlur (ops : PilOps) (src : Img) (radius : Nat) : Img :=
  ⟨src.h, src.w, fun y x => ops.blurPix src radius y x⟩

/-- `_resize_with_aspect` of `app/canvas/pipeline.py`: aspect-preserving
fit (`scale = min(tw/w, th/h)`) and centered placement. Python's float
`round` (half-to-even) is idealised as `round` on `ℚ`. -/
def resizeWithAspect (ops : PilOps) (img : Img) (tw th : Nat) : Img × Placement :=
  let w := img.w
  let h := img.h
  let s : ℚ := ratMin (ratDivNat tw w) (ratDivNat th h)
  let w1 : Nat := max 1 (pyRound (qMul (ratDivNat w 1) s)).toNat
  let h1 : Nat := max 1 (pyRound (qMul (ratDivNat h 1) s)).toNat
  (pilResize ops img w1 h1, ⟨(tw - w1) / 2, (th - h1) / 2, w1, h1⟩)

/-- `np.pad` along the width axis with `reflect` (no edge repeat) or
`edge` (clamp) mode, as used by the reflect branch of
`_build_safe_background`. The guard of the caller keeps each pad strictly
below is the content width, so one reflection suffices. -/
def padHorizontal (img : Img) (padLeft padRight : Nat) (edgeMode : Bool) : Img :=
  ⟨img.h, padLeft + img.w + padRight, fun y x =>
    if x < padLeft then
      img.pix y (if edgeMode then 0 else padLeft - x)
    else if x < padLeft + img.w then
      img.pix y (x - padLeft)
    else
      img.pix y (if edgeMode then img.w - 1 else img.w - 2 - (x - (padLeft + img.w)))⟩

/-- `_build_safe_background` of `app/canvas/pipeline.py`: opt-in reflect
padding when only left/right padding is needed, otherwise the
blurred-cover path (cover resize, center crop, optional Gaussian blur). -/
def buildSafeBackground (ops : PilOps) (st : Settings) (imageSrc resized : Img)
    (p : Placement) (tw th : Nat) : Img :=
  let style := pyLowerStrip st.canvas_background_style
  let padLeft : Int := p.x
  let padRight : Int := (tw : Int) - ((p.x : Int) + (p.width : Int))
  let padTop : Int := p.y
  let padBottom : Int := (th : Int) - ((p.y : Int) + (p.height : Int))
  let reflectSelected :=
    style = "reflect" ∧ padTop = 0 ∧ padBottom = 0 ∧ (0 < padLeft ∨ 0 < padRight)
  let edgeMode : Bool :=
    p.width ≤ 1 || (p.width : Int) ≤ padLeft || (p.width : Int) ≤ padRight
  let safe := padHorizontal resized padLeft.toNat padRight.toNat edgeMode
  if reflectSelected ∧ safe.w = tw ∧ safe.h = th then safe
  else
    let w := imageSrc.w
    let h := imageSrc.h
    let s : ℚ := ratMax (ratDivNat tw w) (ratDivNat th h)
    let coverW : Nat := max 1 (pyRound (qMul (ratDivNat w 1) s)).toNat
    let coverH : Nat := max 1 (pyRound (qMul (ratDivNat h 1) s)).toNat
    let cover := pilResize ops imageSrc coverW coverH
    let left : Int := Int.fdiv ((coverW : Int) - (tw : Int)) 2
    let top : Int := Int.fdiv ((coverH : Int) - (th : Int)) 2
    let cropped : Img := ⟨th, tw, fun y x =>
      let sy := top + (y : Int)
      let sx := left + (x : Int)
      if 0 ≤ sy ∧ sy < (coverH : Int) ∧ 0 ≤ sx ∧ sx < (coverW : Int) then
        cover.pix sy.toNat sx.toNat
      else pxZero⟩
    if style = "blur" ∧ 0 < st.canvas_background_blur_radius then
      pilBlur ops cropped st.canvas_background_blur_radius.toNat
    else cropped

/-- `_compose_center` of `app/canvas/pipeline.py`: paste the resized photo
onto the background and optionally alpha-blend a `canvas_edge_blend_px`
wide seam with linear ramps (right ramp written after, hence taking
precedence on overlap, as in the source's assignment order). -/
def composeCenter (st : Settings) (background resized : Img) (p : Placement) : Img :=
  let h := background.h
  let w := background.w
  let x1 := p.x
  let x2 := p.x + p.width
  let y1 := p.y
  let y2 := p.y + p.height
  let canvas : Img := ⟨h, w, fun y x =>
    if y1 ≤ y ∧ y < y2 ∧ x1 ≤ x ∧ x < x2 then resized.pix (y - y1) (x - x1)
    else background.pix y x⟩
  let blendW : Nat := (max 0 st.canvas_edge_blend_px).toNat
  if blendW = 0 then canvas
  else if x1 ≤ 0 ∧ w ≤ x2 then canvas
  else
    let bL := min blendW (min x1 (max 1 (p.width / 2)))
    let bR := min blendW (min (w - x2) (max 1 (p.width / 2)))
    let alphaAt : Nat → Nat → ℚ := fun y x =>
      if y1 ≤ y ∧ y < y2 then
        if x2 < w ∧ x2 - bR ≤ x ∧ x < x2 + bR ∧ 0 < bR then
          linspaceAt 1 0 (bR + bR) (x - (x2 - bR))
        else if 0 < x1 ∧ x1 - bL ≤ x ∧ x < x1 + bL ∧ 0 < bL then
          linspaceAt 0 1 (bL + bL) (x - (x1 - bL))
        else if x1 ≤ x ∧ x < x2 then 1 else 0
      else 0
    ⟨h, w, fun y x =>
      pxMixRound (canvas.pix y x) (background.pix y x) (1 - alphaAt y x)⟩

/-- `_make_masks` of `app/canvas/pipeline.py`: protected mask is the
placement rectangle; generation mask is the full-height left/right
padding columns. -/
def makeMasks (tw th : Nat) (p : Placement) : Mask × Mask :=
  (⟨th, tw, fun y x =>
      if p.y ≤ y ∧ y < p.y + p.height ∧ p.x ≤ x ∧ x < p.x + p.width then 255 else 0⟩,
   ⟨th, tw, fun _ x => if x < p.x ∨ p.x + p.width ≤ x then 255 else 0⟩)

/-- `_preserve_protected_region`: force-restore protected pixels to the
base (value semantics for the in-place numpy assignment). -/
def preserveProtected (base cand : Img) (m : Mask) : Img :=
  ⟨cand.h, cand.w, fun y x =>
    if 0 < m.val y x then base.pix y x else cand.pix y x⟩

/-- `_harmonize_generated_region` (fast mode): blend the generated band
toward the safe composite with a boundary-weighted ramp, only on active
generation-mask pixels. -/
def harmonizeGeneratedRegion (cand safe : Img) (gen : Mask) (p : Placement) : Img :=
  if gen.h = cand.h ∧ gen.w = cand.w then
    if activeCount gen = 0 then cand
    else
      let w := gen.w
      let rightStart := p.x + p.width
      let leftWidth := p.x
      let rightWidth := w - rightStart
      let rampAt : Nat → ℚ := fun x =>
        if x < leftWidth then linspaceAt (1/5) (1/2) leftWidth x
        else if rightStart ≤ x ∧ 0 < rightWidth then
          linspaceAt (1/2) (1/5) rightWidth (x - rightStart)
        else 0
      ⟨cand.h, cand.w, fun y x =>
        let a := if 0 < gen.val y x then rampAt x else 0
        pxMixRound (cand.pix y x) (safe.pix y x) a⟩
  else cand

/-- First non-generated column of a row (`valid_cols[0]` in
`MirrorOutpaintAdapter.outpaint`). -/
def firstInactive (m : Mask) (w y : Nat) : Option Nat :=
  (List.range w).find? (fun x => !(decide (0 < m.val y x)))

/-- Last non-generated column of a row (`valid_cols[-1]`). -/
def lastInactive (m : Mask) (w y : Nat) : Option Nat :=
  ((List.range w).filter (fun x => !(decide (0 < m.val y x)))).getLast?

/-- `MirrorOutpaintAdapter.outpaint` of `app/canvas/outpaint.py`: fill
each generation row from the nearest non-generated column on its side
(deterministic, non-generative reference implementation). The call site
guarantees the mask and image share dimensions. -/
def mirrorOutpaint (base : Img) (m : Mask) : Img :=
  if activeCount m = 0 then base
  else
    ⟨base.h, base.w, fun y x =>
      match firstInactive m base.w y with
      | none => base.pix y x
      | some fv =>
        let lv := (lastInactive m base.w y).getD fv
        if 0 < m.val y x ∧ x < fv then base.pix y fv
        else if 0 < m.val y x ∧ lv < x then base.pix y lv
        else base.pix y x⟩

/-- The outpaint capability as a closed set of tagged variants (spec §9):
the non-generative reference, or an external diffusion model. The model
function takes the attempt index to reflect that repeated calls of a
stochastic sampler may differ across retries. -/
inductive OutpaintAdapter where
  | mirror : OutpaintAdapter
  | diffusers (gen : Nat → Img → Mask → Nat → Bool → Except String Img) : OutpaintAdapter

/-- `type(adapter).__name__`. -/
def adapterClassName : OutpaintAdapter → String
  | .mirror => "MirrorOutpaintAdapter"
  | .diffusers _ => "DiffusersOutpaintAdapter"

/-- `isinstance(adapter, MirrorOutpaintAdapter)`. -/
def OutpaintAdapter.isMirror : OutpaintAdapter → Bool
  | .mirror => true
  | .diffusers _ => false

/-- Invoke the active outpaint capability; adapter exceptions surface as
`Except.error`. -/
def runOutpaint (a : OutpaintAdapter) (attempt : Nat) (base : Img) (m : Mask)
    (steps : Nat) (fastMode : Bool) : Except String Img :=
  match a with
  | .mirror => .ok (mirrorOutpaint base m)
  | .diffusers g => g attempt base m steps fastMode

/-- `create_default_outpaint_adapter` of `app/canvas/outpaint.py`: the
`mirror`/`none` providers select the reference adapter; `diffusers`/`auto`
select the externally constructed model adapter when its optional
dependencies load, falling back to the mirror otherwise. The re-raise on
an explicit `diffusers` load failure is an external-model concern and not
modelled. -/
def createDefaultOutpaintAdapter (st : Settings)
    (diffusersAdapter : Option OutpaintAdapter) : OutpaintAdapter :=
  let provider := pyLowerStrip st.outpaint_provider
  if provider = "mirror" ∨ provider = "none" then .mirror
  else if provider = "diffusers" ∨ provider = "auto" then
    diffusersAdapter.getD .mirror
  else .mirror

/-- `create_default_detector` of `app/canvas/detector.py`: the `null`
provider selects the reference detector; otherwise the externally
constructed model detector when available, else the reference. -/
def createDefaultDetector (st : Settings)
    (modelDetector : Option AnimalDetector) : AnimalDetector :=
  if pyLowerStrip st.animal_detector_provider = "null" then nullAnimalDetector
  else modelDetector.getD nullAnimalDetector

/-- `CanvasBuildResult`. The dataclass in `app/canvas/types.py` omits the
`adapter_name` field, yet every construction site in
`app/canvas/pipeline.py` passes it and spec §3 lists it; the field is
modelled from the spec and the construction sites. -/
structure CanvasBuildResult where
  image : Img
  used_outpaint : Bool
  adapter_name : String
  fallback_applied : Bool
  fallback_reason : Option String
  safety_passed : Bool
  safety_message : String

/-- The photo as decoded by `_load_bgr` (external decode). -/
def canvasSource (ops : PilOps) (path : String) : Img := ops.decode path

/-- Resized photo and its placement, as computed at the top of
`build_canvas_image`. -/
def canvasResize (ops : PilOps) (st : Settings) (path : String) : Img × Placement :=
  resizeWithAspect ops (canvasSource ops path) st.target_width st.target_height

/-- The `Placement` a photo receives on the target canvas. -/
def canvasPlacement (ops : PilOps) (st : Settings) (path : String) : Placement :=
  (canvasResize ops st path).2

/-- The deterministic safe composite (`safe_canvas` in
`build_canvas_image`), computed before any generation attempt. -/
def canvasSafeComposite (ops : PilOps) (st : Settings) (path : String) : Img :=
  let rp := canvasResize ops st path
  composeCenter st
    (buildSafeBackground ops st (canvasSource ops path) rp.1 rp.2
      st.target_width st.target_height)
    rp.1 rp.2

/-- Everything the outpaint retry loop of `build_canvas_image` reads.
`base_for_generation` is a copy of the safe composite in the source and
therefore the same value here. -/
structure CanvasCtx where
  st : Settings
  naturalness : NaturalnessCheck
  adapter : OutpaintAdapter
  detector : AnimalDetector
  fastMode : Bool
  enableAnimal : Bool
  safeCanvas : Img
  protMask : Mask
  genMask : Mask
  placement : Placement
  steps : Nat

/-- Assemble the retry-loop context of `build_canvas_image`. -/
def mkCanvasCtx (ops : PilOps) (st : Settings) (nat : NaturalnessCheck)
    (adapter : OutpaintAdapter) (det : AnimalDetector)
    (fastMode enableAnimal : Bool) (path : String) : CanvasCtx :=
  let plc := canvasPlacement ops st path
  let masks := makeMasks st.target_width st.target_height plc
  { st := st
    naturalness := nat
    adapter := adapter
    detector := det
    fastMode := fastMode
    enableAnimal := enableAnimal
    safeCanvas := canvasSafeComposite ops st path
    protMask := masks.1
    genMask := masks.2
    placement := plc
    steps := if fastMode then 12 else st.outpaint_num_inference_steps }

/-- One iteration of the outpaint retry loop of `build_canvas_image`
(lines 262–357 of `app/canvas/pipeline.py`): `.inl reason` is a recorded
failure that continues the loop, `.inr result` an immediate return. -/
def canvasAttempt (c : CanvasCtx) (attempt : Nat) : Sum String CanvasBuildResult :=
  match runOutpaint c.adapter attempt c.safeCanvas c.genMask c.steps c.fastMode with
  | .error e => .inl ("outpaint execution failed: " ++ e)
  | .ok candRaw =>
    let cand1 := preserveProtected c.safeCanvas candRaw c.protMask
    let cand :=
      if c.fastMode then
        harmonizeGeneratedRegion cand1 c.safeCanvas c.genMask c.placement
      else cand1
    match checkProtectedRegionUnchanged c.safeCanvas cand c.protMask (mkRat 1 1000) 8 with
    | .error e => .inl ("protected region safety check error: " ++ e)
    | .ok protCheck =>
      if ¬ protCheck.passed then
        .inl (protCheck.reason.getD "protected region safety check failed")
      else if ¬ c.adapter.isMirror then
        let afterAnimal : Sum String Unit :=
          if c.enableAnimal then
            let animalCheck :=
              checkNoNewAnimals cand c.genMask c.detector c.st.strict_safety_checks
            if ¬ animalCheck.passed then
              .inl (animalCheck.reason.getD "new-animal safety check failed")
            else .inr ()
          else .inr ()
        match afterAnimal with
        | .inl r => .inl r
        | .inr () =>
          let boundaryCheck :=
            checkGenerationBoundaryContinuity cand c.protMask c.genMask 34 86 120
          if ¬ boundaryCheck.passed then
            .inl (boundaryCheck.reason.getD "generation boundary safety check failed")
          else
            let natCheck := c.naturalness cand c.protMask c.genMask
            if ¬ natCheck.passed then
              .inl (natCheck.reason.getD "generated region naturalness check failed")
            else
              .inr { image := cand
                     used_outpaint := true
                     adapter_name := adapterClassName c.adapter
                     fallback_applied := false
                     fallback_reason := none
                     safety_passed := true
                     safety_message := "outpaint accepted" }
      else
        .inr { image := c.safeCanvas
               used_outpaint := false
               adapter_name := adapterClassName c.adapter
               fallback_applied := true
               fallback_reason := some "mirror adapter selected; forced safe background fallback (generative outpaint unavailable)"
               safety_passed := true
               safety_message := "safe fallback applied (mirror output blocked)" }

/-- The attempts-exhausted return of `build_canvas_image`
(lines 359–367): the safe composite with the last recorded reason. -/
def canvasExhausted (c : CanvasCtx) (lastReason : String) : CanvasBuildResult :=
  { image := c.safeCanvas
    used_outpaint := true
    adapter_name := adapterClassName c.adapter
    fallback_applied := true
    fallback_reason := some lastReason
    safety_passed := false
    safety_message := "outpaint attempts exhausted, fallback applied" }

/-- The `for _attempt in range(1, attempts + 1)` loop of
`build_canvas_image`, with the running `last_reason`. -/
def canvasAttemptLoop (c : CanvasCtx) : Nat → Nat → String → CanvasBuildResult
  | 0, _, lastReason => canvasExhausted c lastReason
  | n + 1, attempt, lastReason =>
    match canvasAttempt c attempt with
    | .inl r => canvasAttemptLoop c n (attempt + 1) r
    | .inr res =>
      let _ := lastReason
      res

/-- `build_canvas_image` of `app/canvas/pipeline.py`. It never raises on
a safety or generation failure: every attempt failure is recorded and the
function degrades to the safe composite. -/
def buildCanvasImage (ops : PilOps) (st : Settings) (nat : NaturalnessCheck)
    (adapter : OutpaintAdapter) (det : AnimalDetector)
    (fastMode enableAnimal : Bool) (inputPath : String) : CanvasBuildResult :=
  if st.target_width ≤ (canvasPlacement ops st inputPath).width ∨
      (canvasPlacement ops st inputPath).width < st.outpaint_min_width_for_generation then
    { image := canvasSafeComposite ops st inputPath
      used_outpaint := false
      adapter_name := "none"
      fallback_applied := true
      fallback_reason := some "outpaint skipped by width policy"
      safety_passed := true
      safety_message := "safe padding path" }
  else
    canvasAttemptLoop (mkCanvasCtx ops st nat adapter det fastMode enableAnimal inputPath)
      (if fastMode then 1 else max 1 st.outpaint_max_attempts) 1
      "unknown outpaint failure"

/-- `run_canvas_job`: build the canvas with the default adapter/detector
and save it (the `_save_bgr` write is an external effect with no bearing
on the returned value). -/
def runCanvasJob (ops : PilOps) (st : Settings) (nat : NaturalnessCheck)
    (diffusersAdapter : Option OutpaintAdapter)
    (modelDetector : Option AnimalDetector)
    (inputPath outputPath : String) : Except String CanvasBuildResult :=
  let _ := outputPath
  .ok (buildCanvasImage ops st nat
    (createDefaultOutpaintAdapter st diffusersAdapter)
    (createDefaultDetector st modelDetector)
    false true inputPath)

/-- `ALLOWED_TRANSITION_DURATIONS` of `app/video/transition.py`. -/
def allowedTransitionDurations : List Int := [6, 10]

/-- `TransitionBuildResult` of `app/video/transition.py`. -/
structure TransitionBuildResult where
  output_path : String
  used_generative : Bool
  fallback_applied : Bool
  fallback_reason : Option String
  safety_passed : Bool
  safety_message : String
deriving DecidableEq, Inhabited, Repr

/-- The transition-frame capability (`GenerativeTransitionAdapter`):
availability plus a frame generator. As with outpainting, the generator
takes the attempt and frame indices so that a stochastic sampler's calls
can differ across retries; exceptions surface as `Except.error`. -/
structure TransitionAdapter where
  available : Bool
  generateFrame : Nat → Nat → Img → String → Option String → Except String Img

/-- `NullGenerativeTransitionAdapter`: unavailable; identity on frames. -/
def nullTransitionAdapter : TransitionAdapter :=
  ⟨false, fun _ _ img _ _ => .ok img⟩

/-- `create_transition_adapter` of `app/video/transition.py`: `classic`
selects the reference adapter, `diffusers`/`auto` the external model when
its optional dependencies load. The re-raise on an explicit `diffusers`
load failure is an external-model concern and not modelled. -/
def createTransitionAdapter (st : Settings)
    (diffusersAdapter : Option TransitionAdapter) : TransitionAdapter :=
  let provider := pyLowerStrip st.transition_provider
  if provider = "classic" then nullTransitionAdapter
  else if provider = "diffusers" ∨ provider = "auto" then
    diffusersAdapter.getD nullTransitionAdapter
  else nullTransitionAdapter

/-- `_load_and_normalize` of `app/video/transition.py`: aspect-fit the
source onto a blurred cover background of the target size. -/
def loadAndNormalize (ops : PilOps) (st : Settings) (path : String) : Img :=
  let tw := st.target_width
  let th := st.target_height
  let src := ops.decode path
  let w := src.w
  let h := src.h
  let s : ℚ := ratMin (ratDivNat tw w) (ratDivNat th h)
  let w1 : Nat := max 1 (pyRound (qMul (ratDivNat w 1) s)).toNat
  let h1 : Nat := max 1 (pyRound (qMul (ratDivNat h 1) s)).toNat
  let fg := pilResize ops src w1 h1
  let coverS : ℚ := ratMax (ratDivNat tw w) (ratDivNat th h)
  let cw : Nat := max 1 (pyRound (qMul (ratDivNat w 1) coverS)).toNat
  let ch : Nat := max 1 (pyRound (qMul (ratDivNat h 1) coverS)).toNat
  let bg0 := pilResize ops src cw ch
  let left : Int := Int.fdiv ((cw : Int) - (tw : Int)) 2
  let top : Int := Int.fdiv ((ch : Int) - (th : Int)) 2
  let cropped : Img := ⟨th, tw, fun y x =>
    let sy := top + (y : Int)
    let sx := left + (x : Int)
    if 0 ≤ sy ∧ sy < (ch : Int) ∧ 0 ≤ sx ∧ sx < (cw : Int) then
      bg0.pix sy.toNat sx.toNat
    else pxZero⟩
  let blurred := pilBlur ops cropped 22
  let px := (tw - w1) / 2
  let py := (th - h1) / 2
  ⟨th, tw, fun y x =>
    if py ≤ y ∧ y < py + h1 ∧ px ≤ x ∧ x < px + w1 then
      fg.pix (y - py) (x - px)
    else blurred.pix y x⟩

/-- `_sample_indices` of `app/video/transition.py`: every `step`-th
interior frame, always including the last interior frame. -/
def sampleIndices (totalFrames : Nat) (step : Int) : List Nat :=
  if totalFrames ≤ 2 then []
  else
    let stepN := (max 1 step).toNat
    let base := (List.range (totalFrames - 1)).filter
      (fun i => decide (1 ≤ i) && decide ((i - 1) % stepN = 0))
    let lastMid := totalFrames - 2
    if lastMid ∈ base then base else base ++ [lastMid]

/-- `_animal_count` of `app/video/transition.py`: `-1` with an error when
the detector is unavailable in strict mode, otherwise the detection
count. -/
def animalCountOf (det : AnimalDetector) (frame : Img) (strict : Bool) :
    Int × Option String :=
  if ¬ det.available then
    if strict then (-1, some "animal detector unavailable in strict mode")
    else (0, none)
  else ((det.detect frame).length, none)

/-- The sampled-frame scan of `_validate_transition_safety`. -/
def transitionSampleScan (det : AnimalDetector) (strict : Bool)
    (frames : List Img) (baseline allowed : Int) :
    List Nat → Bool × Option String
  | [] => (true, none)
  | idx :: rest =>
    let r := animalCountOf det (frames.getD idx default) strict
    match r.2 with
    | some e => (false, some e)
    | none =>
      if baseline + allowed < r.1 then
        (false, some ("extra animal detected on frame " ++ toString idx))
      else transitionSampleScan det strict frames baseline allowed rest

/-- `_validate_transition_safety` of `app/video/transition.py`: zero
tolerance first/last-frame identity over a full-frame mask, then the
baseline animal-count comparison over geometrically sampled interior
frames. A `ValueError` from the frame-identity check propagates
(`Except.error`), to be caught by the attempt loop. -/
def validateTransitionSafety (frames : List Img) (frameA frameB : Img)
    (det : AnimalDetector) (st : Settings) :
    Except String (Bool × Option String) :=
  if frames.isEmpty then .ok (false, some "frames are empty")
  else
    let fullMask : Mask := ⟨st.target_height, st.target_width, fun _ _ => 255⟩
    match checkProtectedRegionUnchanged frameA (frames.headD default) fullMask 0 8 with
    | .error e => .error e
    | .ok startCheck =>
      if ¬ startCheck.passed then
        .ok (false, some ("first frame mismatch: " ++ startCheck.reason.getD "None"))
      else
        match checkProtectedRegionUnchanged frameB (frames.getLastD default) fullMask 0 8 with
        | .error e => .error e
        | .ok endCheck =>
          if ¬ endCheck.passed then
            .ok (false, some ("last frame mismatch: " ++ endCheck.reason.getD "None"))
          else
            let strict := st.strict_safety_checks
            let ra := animalCountOf det frameA strict
            match ra.2 with
            | some e => .ok (false, some e)
            | none =>
              let rb := animalCountOf det frameB strict
              match rb.2 with
              | some e => .ok (false, some e)
              | none =>
                let baseline := max ra.1 rb.1
                let allowed := max 0 st.transition_allowed_extra_animals
                .ok (transitionSampleScan det strict frames baseline allowed
                  (sampleIndices frames.length st.transition_safety_sample_step))

/-- Effectful map over frame indices in the `Except` monad (the frame
loop of `build_transition_clip`; the first exception aborts the attempt). -/
def exceptMapIdx (f : Nat → Except String Img) : List Nat → Except String (List Img)
  | [] => .ok []
  | i :: rest =>
    match f i with
    | .error e => .error e
    | .ok v =>
      match exceptMapIdx f rest with
      | .error e => .error e
      | .ok out => .ok (v :: out)

/-- The body of the frame loop of `build_transition_clip` at index `idx`:
cross-dissolve, with every `genStep`-th interior frame passed through the
capability. The division in `alpha` is never reached with `total = 1` at
the call sites (`total ≥ 2`; Python would divide by zero). -/
def transitionFrameAt (genFrame : Nat → Img → Except String Img)
    (frameA frameB : Img) (total genStep idx : Nat) : Except String Img :=
  let alpha : ℚ := (idx : ℚ) / ((total : ℚ) - 1)
  let base := blendImg frameA frameB alpha
  if idx = 0 then .ok frameA
  else if idx = total - 1 then .ok frameB
  else if idx % genStep ≠ 0 then .ok base
  else genFrame idx base

/-- The frame-synthesis block of one generative attempt
(lines 361–379 of `app/video/transition.py`): cross-dissolve every frame,
pass every `genStep`-th interior frame through the capability, then hard
enforce first/last exactness. The call sites always pass
`total = max 2 (duration × fps) ≥ 2`. -/
def mkTransitionFrames (genFrame : Nat → Img → Except String Img)
    (frameA frameB : Img) (total genStep : Nat) : Except String (List Img) :=
  match exceptMapIdx (transitionFrameAt genFrame frameA frameB total genStep)
      (List.range total) with
  | .error e => .error e
  | .ok raw => .ok ((raw.set 0 frameA).set (raw.length - 1) frameB)

/-- Everything one generative transition attempt reads. -/
structure TransCtx where
  st : Settings
  adapter : TransitionAdapter
  detector : AnimalDetector
  writeFrames : List Img → String → Except String String
  frameA : Img
  frameB : Img
  totalFrames : Nat
  genStep : Nat
  outputPath : String
  prompt : String
  negPrompt : Option String

/-- Assemble the attempt context of `build_transition_clip`. The frame
writer (`_write_frames_to_video`, an ffmpeg invocation) is an external
collaborator passed as a parameter. -/
def mkTransCtx (ops : PilOps) (st : Settings) (adapter : TransitionAdapter)
    (detector : AnimalDetector)
    (writeFrames : List Img → String → Except String String)
    (aPath bPath outPath : String) (duration : Int)
    (prompt : String) (negPrompt : Option String) : TransCtx :=
  { st := st
    adapter := adapter
    detector := detector
    writeFrames := writeFrames
    frameA := loadAndNormalize ops st aPath
    frameB := loadAndNormalize ops st bPath
    totalFrames := max 2 (duration * (st.target_fps : Int)).toNat
    genStep := (max 1 st.transition_generation_step).toNat
    outputPath := outPath
    prompt := prompt
    negPrompt := negPrompt }

/-- One iteration of the generative attempt loop of
`build_transition_clip` (lines 355–397): `.inl reason` records a failure
and continues; `.inr (result, frames)` is the success return, paired with
the frame list the source writes to the encoder. -/
def transitionAttempt (c : TransCtx) (attempt : Nat) :
    Sum String (TransitionBuildResult × List Img) :=
  if ¬ c.adapter.available then .inl "generative adapter unavailable"
  else
    match mkTransitionFrames
        (fun i base => c.adapter.generateFrame attempt i base c.prompt c.negPrompt)
        c.frameA c.frameB c.totalFrames c.genStep with
    | .error e => .inl e
    | .ok frames =>
      match validateTransitionSafety frames c.frameA c.frameB c.detector c.st with
      | .error e => .inl e
      | .ok (safetyOk, safetyReason) =>
        if ¬ safetyOk then .inl (safetyReason.getD "transition safety check failed")
        else
          match c.writeFrames frames c.outputPath with
          | .error e => .inl e
          | .ok built =>
            .inr ({ output_path := built
                    used_generative := true
                    fallback_applied := false
                    fallback_reason := none
                    safety_passed := true
                    safety_message := "generative transition accepted" }, frames)

/-- The attempt loop of `build_transition_clip` with the classical
crossfade fallback on exhaustion (lines 399–412); note the exhaustion
result keeps `used_generative := true` exactly as the source does. An
encoder failure of the classical build propagates as a hard error. -/
def transitionLoop (c : TransCtx) (classicBuild : Except String String) :
    Nat → Nat → String → Except String TransitionBuildResult
  | 0, _, lastReason =>
    match classicBuild with
    | .error e => .error e
    | .ok built =>
      .ok { output_path := built
            used_generative := true
            fallback_applied := true
            fallback_reason := some lastReason
            safety_passed := false
            safety_message := "generative attempts exhausted, classic fallback applied" }
  | n + 1, attempt, lastReason =>
    match transitionAttempt c attempt with
    | .inl r => transitionLoop c classicBuild n (attempt + 1) r
    | .inr res =>
      let _ := lastReason
      .ok res.1

/-- `build_transition_clip` of `app/video/transition.py`. The classical
builder (`_build_classic_transition_clip`, an ffmpeg invocation on the two
source images) is an external collaborator passed as a parameter. -/
def buildTransitionClip (ops : PilOps) (st : Settings)
    (adapter : TransitionAdapter) (detector : AnimalDetector)
    (writeFrames : List Img → String → Except String String)
    (classicBuild : String → String → String → Int → Except String String)
    (aPath bPath outPath : String) (duration : Int)
    (prompt : String) (negPrompt : Option String) :
    Except String TransitionBuildResult :=
  if duration ∉ allowedTransitionDurations then
    .error "duration_seconds must be one of: 6, 10"
  else if pyStrip prompt = "" then
    .error "prompt is required for generative transition"
  else
    let c := mkTransCtx ops st adapter detector writeFrames
      aPath bPath outPath duration prompt negPrompt
    if pyLowerStrip st.transition_provider = "classic" then
      match classicBuild aPath bPath outPath duration with
      | .error e => .error e
      | .ok built =>
        .ok { output_path := built
              used_generative := false
              fallback_applied := true
              fallback_reason := some "classic provider configured"
              safety_passed := true
              safety_message := "classic transition path" }
    else
      transitionLoop c (classicBuild aPath bPath outPath duration)
        (max 1 st.transition_max_attempts) 1 "unknown generative transition failure"

/-- One `on_progress` invocation: stage name, percent, detail. -/
abbrev Event := String × Nat × Option String

/-- The percent component of a progress event. -/
def evPct (e : Event) : Nat := e.2.1

/-- `PipelineRunSummary` of `app/pipeline/orchestrator.py`. -/
structure PipelineRunSummary where
  final_output_path : String
  canvas_paths : List String
  transition_paths : List String
  last_clip_path : String
  fallback_count : Nat
  canvas_fallback_count : Nat
  transition_fallback_count : Nat
  safety_failed_count : Nat
deriving DecidableEq, Inhabited, Repr

/-- Python's `f"{idx:04d}"`. -/
def pad4 (i : Nat) : String :=
  let s := toString i
  if s.length < 4 then String.mk (List.replicate (4 - s.length) '0') ++ s else s

/-- `_require_files`: fail on the first input path that does not exist. -/
def requireFiles (fileExists : String → Bool) : List String → Except String Unit
  | [] => .ok ()
  | p :: rest =>
    if fileExists p then requireFiles fileExists rest
    else .error ("input image not found: " ++ p)

/-- The progress event emitted for the `idx`-th canvas build of `n`. -/
def canvasEv (n idx : Nat) : Event :=
  ("canvas", 6 + 33 * idx / max 1 n,
    some ("canvas " ++ toString (idx + 1) ++ "/" ++ toString n))

/-- The progress event emitted for the `idx`-th transition build of `t`. -/
def transEv (t idx : Nat) : Event :=
  ("transition", 46 + 28 * idx / max 1 t,
    some ("transition " ++ toString (idx + 1) ++ "/" ++ toString t))

/-- Accumulated state of the canvas stage loop. -/
structure CanvasAcc where
  canvasPaths : List String
  fallback : Nat
  canvasFallback : Nat
  safetyFailed : Nat
  trace : List Event
  polls : Nat

/-- The canvas stage loop of `run_full_pipeline` (lines 82–94): poll
cancellation, emit progress, run the canvas job, accumulate counters.
`n` is the total image count, `idx` the running index and `polls` the
running cancellation-poll counter. -/
def canvasStage (job : String → String → Except String CanvasBuildResult)
    (canceled : Nat → Bool) (canvasDir : String) (n : Nat) :
    List String → Nat → Nat → Except String CanvasAcc
  | [], _, polls => .ok ⟨[], 0, 0, 0, [], polls⟩
  | p :: rest, idx, polls =>
    if canceled polls then .error "canceled"
    else
      let ev : Event := canvasEv n idx
      let outPath := canvasDir ++ "/canvas_" ++ pad4 idx ++ ".jpg"
      match job p outPath with
      | .error e => .error e
      | .ok res =>
        match canvasStage job canceled canvasDir n rest (idx + 1) (polls + 1) with
        | .error e => .error e
        | .ok acc =>
          .ok ⟨outPath :: acc.canvasPaths,
               (if res.fallback_applied then 1 else 0) + acc.fallback,
               (if res.fallback_applied then 1 else 0) + acc.canvasFallback,
               (if res.safety_passed then 0 else 1) + acc.safetyFailed,
               ev :: acc.trace,
               acc.polls⟩

/-- Accumulated state of the transition stage loop. -/
structure TransAcc where
  transitionPaths : List String
  fallback : Nat
  transitionFallback : Nat
  safetyFailed : Nat
  trace : List Event
  polls : Nat

/-- The transition stage loop of `run_full_pipeline` (lines 101–119).
`t` is the total transition count; the loop runs over indices
`idx, …, idx + remaining - 1`. -/
def transStage
    (job : String → String → String → Int → String → Option String →
      Except String TransitionBuildResult)
    (canceled : Nat → Bool) (transitionDir : String)
    (canvasPaths : List String) (t : Nat) (duration : Int)
    (prompt : String) (negPrompt : Option String) :
    Nat → Nat → Nat → Except String TransAcc
  | 0, _, polls => .ok ⟨[], 0, 0, 0, [], polls⟩
  | remaining + 1, idx, polls =>
    if canceled polls then .error "canceled"
    else
      let ev : Event := transEv t idx
      let outClip := transitionDir ++ "/transition_" ++ pad4 idx ++ ".mp4"
      match job (canvasPaths.getD idx "") (canvasPaths.getD (idx + 1) "")
          outClip duration prompt negPrompt with
      | .error e => .error e
      | .ok res =>
        match transStage job canceled transitionDir canvasPaths t duration
            prompt negPrompt remaining (idx + 1) (polls + 1) with
        | .error e => .error e
        | .ok acc =>
          .ok ⟨res.output_path :: acc.transitionPaths,
               (if res.fallback_applied then 1 else 0) + acc.fallback,
               (if res.fallback_applied then 1 else 0) + acc.transitionFallback,
               (if res.safety_passed then 0 else 1) + acc.safetyFailed,
               ev :: acc.trace,
               acc.polls⟩

/-- The tail of `run_full_pipeline` after the transition stage
(lines 124–159 of `app/pipeline/orchestrator.py`): cancellation poll,
last-clip build, cancellation poll, final render, summary. -/
def pipelineFinish
    (lastClipJob : String → String → Int → String → Except String String)
    (renderJob : List String → String → Option String → ℚ → Except String String)
    (canceled : Nat → Bool) (lastDir finalOutputPath : String)
    (lastClipDuration : Int) (lastClipMotionStyle : String)
    (bgmPath : Option String) (bgmVolume : ℚ)
    (cacc : CanvasAcc) (tacc : TransAcc) (evSoFar : List Event) :
    Except String (PipelineRunSummary × List Event) :=
  if canceled tacc.polls then .error "canceled"
  else
    let ev6 := evSoFar ++ [("last_clip_start", 82, some "building last clip")]
    let lastSource := cacc.canvasPaths.getLastD ""
    let lastClipPath := lastDir ++ "/last_clip.mp4"
    match lastClipJob lastSource lastClipPath lastClipDuration
        lastClipMotionStyle with
    | .error e => .error e
    | .ok _ =>
      let ev7 := ev6 ++ [("last_clip_done", 90, some "last clip completed")]
      if canceled (tacc.polls + 1) then .error "canceled"
      else
        let ev8 := ev7 ++ [("render_start", 92, some "building final render")]
        let allClips := tacc.transitionPaths ++ [lastClipPath]
        match renderJob allClips finalOutputPath bgmPath bgmVolume with
        | .error e => .error e
        | .ok finalPath =>
          .ok ({ final_output_path := finalPath
                 canvas_paths := cacc.canvasPaths
                 transition_paths := tacc.transitionPaths
                 last_clip_path := lastClipPath
                 fallback_count := cacc.fallback + tacc.fallback
                 canvas_fallback_count := cacc.canvasFallback
                 transition_fallback_count := tacc.transitionFallback
                 safety_failed_count := cacc.safetyFailed + tacc.safetyFailed },
                ev8 ++ [("render_done", 99, some "final render completed"),
                        ("completed", 100, some "pipeline completed")])

/-- `run_full_pipeline` of `app/pipeline/orchestrator.py`, returning the
summary together with the full ordered sequence of `on_progress`
invocations. The stage jobs (canvas build, transition build, last clip,
final render — the latter two being ffmpeg invocations) are parameters;
`canceled` models the cancellation-check callback raising at the k-th
poll point, which aborts the run as a hard error. Directory creation and
file writes are external effects. -/
def runFullPipeline
    (fileExists : String → Bool)
    (canvasJob : String → String → Except String CanvasBuildResult)
    (transitionJob : String → String → String → Int → String → Option String →
      Except String TransitionBuildResult)
    (lastClipJob : String → String → Int → String → Except String String)
    (renderJob : List String → String → Option String → ℚ → Except String String)
    (canceled : Nat → Bool)
    (imagePaths : List String) (workingDir finalOutputPath : String)
    (transitionDuration : Int) (transitionPrompt : String)
    (transitionNegPrompt : Option String)
    (lastClipDuration : Int) (lastClipMotionStyle : String)
    (bgmPath : Option String) (bgmVolume : ℚ) :
    Except String (PipelineRunSummary × List Event) :=
  if imagePaths = [] then .error "image_paths must not be empty"
  else if pyStrip transitionPrompt = "" then .error "transition_prompt is required"
  else
    match requireFiles fileExists imagePaths with
    | .error e => .error e
    | .ok _ =>
      let canvasDir := workingDir ++ "/canvas"
      let transitionDir := workingDir ++ "/transitions"
      let lastDir := workingDir ++ "/last"
      let n := imagePaths.length
      let ev1 : List Event := [("pipeline_prepare", 1, some "starting pipeline")]
      if canceled 0 then .error "canceled"
      else
        let ev2 := ev1 ++
          [("canvas_start", 5, some ("canvas start: " ++ toString n ++ " image(s)"))]
        match canvasStage canvasJob canceled canvasDir n imagePaths 0 1 with
        | .error e => .error e
        | .ok cacc =>
          let ev3 := ev2 ++ cacc.trace ++
            [("canvas_done", 40,
              some ("canvas done: " ++ toString cacc.canvasPaths.length ++ " image(s)"))]
          if 2 ≤ cacc.canvasPaths.length then
            let t := cacc.canvasPaths.length - 1
            let ev4 := ev3 ++
              [("transition_start", 45,
                some ("transition start: " ++ toString t ++ " clip(s)"))]
            match transStage transitionJob canceled transitionDir
                cacc.canvasPaths t transitionDuration transitionPrompt
                transitionNegPrompt t 0 cacc.polls with
            | .error e => .error e
            | .ok tacc =>
              pipelineFinish lastClipJob renderJob canceled lastDir
                finalOutputPath lastClipDuration lastClipMotionStyle bgmPath
                bgmVolume cacc tacc
                (ev4 ++ tacc.trace ++
                  [("transition_done", 75,
                    some ("transition done: " ++
                      toString tacc.transitionPaths.length ++ " clip(s)"))])
          else
            pipelineFinish lastClipJob renderJob canceled lastDir
              finalOutputPath lastClipDuration lastClipMotionStyle bgmPath
              bgmVolume cacc ⟨[], 0, 0, 0, [], cacc.polls⟩
              (ev3 ++
                [("transition_skipped", 75, some "transition skipped: single image")])

/-- The defaults of `app/config.py` for the modelled fields. The values of
the last three fields are modelled from the spec (their declarations are
absent from `src/app/config.py`); no theorem below depends on them. -/
def defaultSettings : Settings :=
  { target_width := 1600
    target_height := 900
    target_fps := 24
    strict_safety_checks := true
    outpaint_min_width_for_generation := 900
    outpaint_max_attempts := 2
    transition_max_attempts := 2
    outpaint_provider := "auto"
    outpaint_num_inference_steps := 30
    animal_detector_provider := "auto"
    transition_provider := "auto"
    transition_generation_step := 8
    transition_allowed_extra_animals := 0
    transition_safety_sample_step := 8
    canvas_background_style := "blur"
    canvas_background_blur_radius := 24
    canvas_edge_blend_px := 0 }

/-- A naturalness verdict that always accepts (used where the check is
never reached). -/
def natAlwaysPass : NaturalnessCheck := fun _ _ _ => ⟨true, none⟩

/-- A tiny 2×2 mid-gray test photo. -/
def imgTiny : Img := ⟨2, 2, fun _ _ => ⟨128, 128, 128⟩⟩

/-- Trivial external imaging primitives decoding every path to `imgTiny`. -/
def opsTiny : PilOps :=
  { decode := fun _ => imgTiny
    resizePix := fun _ _ _ _ _ => ⟨128, 128, 128⟩
    blurPix := fun _ _ _ _ => ⟨128, 128, 128⟩ }

/-- Small-canvas settings: 4×2 target, generation allowed from width 1. -/
def stSmall : Settings :=
  { defaultSettings with
      target_width := 4
      target_height := 2
      outpaint_min_width_for_generation := 1 }

/-- A model outpaint adapter whose every call raises. -/
def failingOutpaint : OutpaintAdapter :=
  .diffusers (fun _ _ _ _ _ => .error "boom")

/-- A 1600×900 mid-gray photo (exactly the target canvas size). -/
def imgFullHD : Img := ⟨900, 1600, fun _ _ => ⟨128, 128, 128⟩⟩

/-- External imaging primitives decoding every path to `imgFullHD`. -/
def opsFullHD : PilOps :=
  { decode := fun _ => imgFullHD
    resizePix := fun _ _ _ _ _ => ⟨128, 128, 128⟩
    blurPix := fun _ _ _ _ => ⟨128, 128, 128⟩ }

/-- The spec §8 scenario configuration: reference (mirror) outpaint
adapter, reference (null, unavailable) detector, classic transition
provider; all other values as in `app/config.py`. -/
def stMemorial : Settings :=
  { defaultSettings with
      outpaint_provider := "mirror"
      animal_detector_provider := "null"
      transition_provider := "classic" }

/-- A frame writer that always succeeds, returning the output path. -/
def writeFramesOk : List Img → String → Except String String :=
  fun _ p => .ok p

/-- A classical-crossfade builder that always succeeds, returning the
output path (the source returns `str(out)` on encoder success). -/
def classicBuildOk : String → String → String → Int → Except String String :=
  fun _ _ out _ => .ok out

/-- The canvas job of the scenario run: `run_canvas_job` with the
scenario configuration. -/
def c1CanvasJob : String → String → Except String CanvasBuildResult :=
  fun p out => runCanvasJob opsFullHD stMemorial natAlwaysPass none none p out

/-- The transition job of the scenario run: `build_transition_clip` with
the scenario configuration. -/
def c1TransitionJob :
    String → String → String → Int → String → Option String →
      Except String TransitionBuildResult :=
  fun a b out d p np =>
    buildTransitionClip opsFullHD stMemorial
      (createTransitionAdapter stMemorial none)
      (createDefaultDetector stMemorial none)
      writeFramesOk classicBuildOk a b out d p np

/-- The spec §8 scenario run: two 1600×900 photos, 6-second duration,
mirror outpaint adapter, unavailable detector, classic transition
provider, no cancellation. -/
def c1Run : Except String (PipelineRunSummary × List Event) :=
  runFullPipeline (fun _ => true) c1CanvasJob c1TransitionJob
    (fun _ _ _ _ => .ok "last.mp4") (fun _ _ _ _ => .ok "final.mp4")
    (fun _ => false)
    ["a.jpg", "b.jpg"] "work" "final.mp4" 6 "memorial transition" none
    6 "zoom_in" none 1

/-- A fixed canvas result for exercising the orchestrator alone. -/
def c7CanvasResult : CanvasBuildResult :=
  { image := imgTiny
    used_outpaint := false
    adapter_name := "none"
    fallback_applied := false
    fallback_reason := none
    safety_passed := true
    safety_message := "m" }

/-- A fixed transition result for exercising the orchestrator alone. -/
def c7TransResult : TransitionBuildResult :=
  ⟨"t.mp4", false, false, none, true, "m"⟩

/-- A three-image orchestrator run with trivial stage jobs. -/
def c7Run : Except String (PipelineRunSummary × List Event) :=
  runFullPipeline (fun _ => true)
    (fun _ _ => .ok c7CanvasResult)
    (fun _ _ _ _ _ _ => .ok c7TransResult)
    (fun _ _ _ _ => .ok "last.mp4") (fun _ _ _ _ => .ok "final.mp4")
    (fun _ => false)
    ["x.jpg", "y.jpg", "z.jpg"] "wd" "f.mp4" 6 "p" none 6 "none" none 1

/-- The successful payload of `c7Run`. -/
def c7Pair : PipelineRunSummary × List Event := c7Run.toOption.getD default

/-- 2×2-target transition settings with `target_fps = 0`, non-strict
safety, generation step 1 and a non-classic provider. -/
def stFpsZero : Settings :=
  { defaultSettings with
      target_width := 2
      target_height := 2
      target_fps := 0
      strict_safety_checks := false
      transition_generation_step := 1
      transition_provider := "auto" }

/-- Same as `stFpsZero` but with one frame per second. -/
def stFpsOne : Settings := { stFpsZero with target_fps := 1 }

/-- An available transition adapter returning each blended frame
unchanged. -/
def idTransitionAdapter : TransitionAdapter :=
  ⟨true, fun _ _ img _ _ => .ok img⟩

/-- Transition attempt context at `target_fps = 0`, duration 6. -/
def c3CtxZero : TransCtx :=
  mkTransCtx opsTiny stFpsZero idTransitionAdapter nullAnimalDetector
    writeFramesOk "a" "b" "out.mp4" 6 "prompt" none

/-- Transition attempt context at `target_fps = 1`, duration 6. -/
def c3CtxOne : TransCtx :=
  mkTransCtx opsTiny stFpsOne idTransitionAdapter nullAnimalDetector
    writeFramesOk "a" "b" "out.mp4" 6 "prompt" none

/-- The successful payload of the first attempt on `c3CtxOne`. -/
def c3PairOne : TransitionBuildResult × List Img :=
  (transitionAttempt c3CtxOne 1).getRight?.getD default

/-- A single-pixel test image. -/
def imgOne : Img := ⟨1, 1, fun _ _ => ⟨7, 7, 7⟩⟩

/-- A 1×1 mask with its pixel active. -/
def maskOnOne : Mask := ⟨1, 1, fun _ _ => 255⟩

/-- A 1×1 mask with no active pixel. -/
def maskOffOne : Mask := ⟨1, 1, fun _ _ => 0⟩

/-- Non-classic transition settings for the exhaustion fallback. -/
def stAutoSmall : Settings :=
  { defaultSettings with
      target_width := 2
      target_height := 2
      transition_provider := "auto"
      strict_safety_checks := false }

/-- Transition attempt context whose adapter is unavailable (the `auto`
provider resolved to the reference adapter). -/
def c10Ctx : TransCtx :=
  mkTransCtx opsTiny stAutoSmall nullTransitionAdapter nullAnimalDetector
    writeFramesOk "a" "b" "o.mp4" 6 "p" none

theorem chanDiff_self (a : Fin 256) : chanDiff a a = 0 := by
  simp [chanDiff]

theorem pxMaxDiff_self (p : Px) : pxMaxDiff p p = 0 := by
  simp [pxMaxDiff, chanDiff_self]

theorem changedCount_self (img : Img) (m : Mask) (thr : Nat) :
    changedCount img img m thr = 0 := by
  unfold changedCount
  rw [Finset.card_eq_zero, Finset.filter_eq_empty_iff]
  intro p _
  simp [pxMaxDiff_self]

/-- C5: for every base image, candidate image and mask with no active
pixel (and the shape compatibility the check's own guards demand), the
protected-region check returns `passed = false` with the empty-mask
reason: an empty protected mask is a misconfiguration, never a pass. -/
theorem protected_check_empty_mask_fails (base cand : Img) (m : Mask)
    (hbh : base.h = cand.h) (hbw : base.w = cand.w)
    (hmh : m.h = base.h) (hmw : m.w = base.w)
    (hz : activeCount m = 0) :
    checkProtectedRegionUnchanged base cand m (mkRat 1 1000) 8 =
      .ok ⟨false, some "protected mask is empty"⟩ := by
  unfold checkProtectedRegionUnchanged countChangedPixels
  rw [if_pos ⟨hbh, hbw⟩, if_pos ⟨hmh, hmw⟩]
  simp [hz]

/-- Witness for C5 at a concrete 1×1 input with an all-zero mask. -/
theorem protected_check_empty_mask_fails_witness :
    activeCount maskOffOne = 0 ∧
    checkProtectedRegionUnchanged imgOne imgOne maskOffOne (mkRat 1 1000) 8 =
      .ok ⟨false, some "protected mask is empty"⟩ :=
  ⟨by decide,
   protected_check_empty_mask_fails imgOne imgOne maskOffOne rfl rfl rfl rfl
     (by decide)⟩

/-- C9: the protected-region check is reflexive — an unchanged candidate
always passes on any mask with at least one active pixel (default
threshold and ratio, as at the call sites). -/
theorem protected_check_reflexive (base : Img) (m : Mask)
    (hmh : m.h = base.h) (hmw : m.w = base.w)
    (hact : 0 < activeCount m) :
    checkProtectedRegionUnchanged base base m (mkRat 1 1000) 8 = .ok ⟨true, none⟩ := by
  unfold checkProtectedRegionUnchanged countChangedPixels
  rw [if_pos ⟨rfl, rfl⟩, if_pos ⟨hmh, hmw⟩]
  have hz := changedCount_self base m 8
  simp only [hz]
  rw [if_neg (by omega)]
  rw [if_neg (by rw [Nat.cast_zero, Rat.zero_mkRat]; decide)]

/-- Witness for C9 at a concrete 1×1 input with an active mask. -/
theorem protected_check_reflexive_witness :
    0 < activeCount maskOnOne ∧
    checkProtectedRegionUnchanged imgOne imgOne maskOnOne (mkRat 1 1000) 8 =
      .ok ⟨true, none⟩ :=
  ⟨by decide, protected_check_reflexive imgOne maskOnOne rfl rfl (by decide)⟩

/-- C6: with an unavailable detector (and the shape compatibility the
check's own guard demands): in strict mode with a non-empty generation
mask the check fails defensively; with strict mode off it passes; with an
empty generation mask it passes even in strict mode. -/
theorem no_new_animals_unavailable_detector (cand : Img) (m : Mask)
    (det : AnimalDetector) (hav : det.available = false)
    (hmh : m.h = cand.h) (hmw : m.w = cand.w) :
    (0 < activeCount m →
      checkNoNewAnimals cand m det true =
        ⟨false, some "animal detector unavailable in strict mode"⟩) ∧
    checkNoNewAnimals cand m det false = ⟨true, none⟩ ∧
    (activeCount m = 0 → checkNoNewAnimals cand m det true = ⟨true, none⟩) := by
  refine ⟨fun h => ?_, ?_, fun hz => ?_⟩
  · simp [checkNoNewAnimals, hav, hmh, hmw, h]
  · simp [checkNoNewAnimals, hav, hmh, hmw]
  · simp [checkNoNewAnimals, hav, hmh, hmw, hz]

/-- Witness for C6 at concrete 1×1 inputs with the reference detector:
active mask in strict mode fails; strict mode off passes; empty mask in
strict mode passes. -/
theorem no_new_animals_unavailable_detector_witness :
    (0 < activeCount maskOnOne ∧
      checkNoNewAnimals imgOne maskOnOne nullAnimalDetector true =
        ⟨false, some "animal detector unavailable in strict mode"⟩) ∧
    checkNoNewAnimals imgOne maskOnOne nullAnimalDetector false = ⟨true, none⟩ ∧
    (activeCount maskOffOne = 0 ∧
      checkNoNewAnimals imgOne maskOffOne nullAnimalDetector true = ⟨true, none⟩) :=
  ⟨⟨by decide,
    (no_new_animals_unavailable_detector imgOne maskOnOne nullAnimalDetector
      rfl rfl rfl).1 (by decide)⟩,
   (no_new_animals_unavailable_detector imgOne maskOnOne nullAnimalDetector
      rfl rfl rfl).2.1,
   ⟨by decide,
    (no_new_animals_unavailable_detector imgOne maskOffOne nullAnimalDetector
      rfl rfl rfl).2.2 (by decide)⟩⟩

theorem canvasAttemptLoop_all_fail (c : CanvasCtx) (r : Nat → String) :
    ∀ (n s : Nat) (last : String),
      (∀ k, s ≤ k → k < s + n → canvasAttempt c k = .inl (r k)) →
      canvasAttemptLoop c n s last =
        canvasExhausted c (if n = 0 then last else r (s + n - 1)) := by
  intro n
  induction n with
  | zero => intro s last _; simp [canvasAttemptLoop]
  | succ m ih =>
    intro s last h
    have h1 : canvasAttempt c s = .inl (r s) := h s le_rfl (by omega)
    have ih' := ih (s + 1) (r s) (fun k hk1 hk2 => h k (by omega) (by omega))
    simp only [canvasAttemptLoop, h1, ih']
    cases m with
    | zero => simp
    | succ m' =>
      rw [if_neg (Nat.succ_ne_zero m'), if_neg (Nat.succ_ne_zero (m' + 1))]
      have harg : s + 1 + (m' + 1) - 1 = s + (m' + 1 + 1) - 1 := by omega
      rw [harg]

/-- C2: `build_canvas_image` never raises on safety or generation
failure. When generation is attempted (placement width within the policy
window) and every attempt fails — each recorded with its reason — the
function returns normally: the image is bit-identical to the safe
composite computed before any generation attempt, `fallback_applied` is
set, `safety_passed` is cleared and `fallback_reason` is the reason
recorded by the final (last) failing attempt. -/
theorem canvas_build_all_fail_returns_safe_composite
    (ops : PilOps) (st : Settings) (nat : NaturalnessCheck)
    (adapter : OutpaintAdapter) (det : AnimalDetector)
    (fastMode enableAnimal : Bool) (path : String) (r : Nat → String)
    (hlow : st.outpaint_min_width_for_generation ≤ (canvasPlacement ops st path).width)
    (hhigh : (canvasPlacement ops st path).width < st.target_width)
    (hfail : ∀ k, 1 ≤ k →
      k < 1 + (if fastMode then 1 else max 1 st.outpaint_max_attempts) →
      canvasAttempt (mkCanvasCtx ops st nat adapter det fastMode enableAnimal path) k =
        .inl (r k)) :
    buildCanvasImage ops st nat adapter det fastMode enableAnimal path =
      { image := canvasSafeComposite ops st path
        used_outpaint := true
        adapter_name := adapterClassName adapter
        fallback_applied := true
        fallback_reason := some (r (if fastMode then 1 else max 1 st.outpaint_max_attempts))
        safety_passed := false
        safety_message := "outpaint attempts exhausted, fallback applied" } := by
  unfold buildCanvasImage
  rw [if_neg (by omega)]
  rw [canvasAttemptLoop_all_fail
    (mkCanvasCtx ops st nat adapter det fastMode enableAnimal path) r
    (if fastMode then 1 else max 1 st.outpaint_max_attempts) 1
    "unknown outpaint failure" hfail]
  have hne : ¬ ((if fastMode then 1 else max 1 st.outpaint_max_attempts) = 0) := by
    split <;> omega
  rw [if_neg hne]
  have harg : 1 + (if fastMode then 1 else max 1 st.outpaint_max_attempts) - 1 =
      (if fastMode then 1 else max 1 st.outpaint_max_attempts) := by omega
  rw [harg]
  rfl

/-- Witness for C2: a 2×2 photo on a 4×2 canvas (placement width 2 within
the policy window) with a model adapter that raises on every call; both
attempts fail and the build degrades to the safe composite with the last
failure reason. -/
theorem canvas_build_all_fail_returns_safe_composite_witness :
    (stSmall.outpaint_min_width_for_generation ≤
        (canvasPlacement opsTiny stSmall "p").width ∧
      (canvasPlacement opsTiny stSmall "p").width < stSmall.target_width) ∧
    buildCanvasImage opsTiny stSmall natAlwaysPass failingOutpaint
        nullAnimalDetector false true "p" =
      { image := canvasSafeComposite opsTiny stSmall "p"
        used_outpaint := true
        adapter_name := "DiffusersOutpaintAdapter"
        fallback_applied := true
        fallback_reason := some "outpaint execution failed: boom"
        safety_passed := false
        safety_message := "outpaint attempts exhausted, fallback applied" } :=
  by
  have hw : (canvasPlacement opsTiny stSmall "p").width = 2 := by decide
  refine ⟨⟨by rw [hw]; decide, by rw [hw]; decide⟩, ?_⟩
  exact canvas_build_all_fail_returns_safe_composite opsTiny stSmall natAlwaysPass
    failingOutpaint nullAnimalDetector false true "p"
    (fun _ => "outpaint execution failed: boom")
    (by rw [hw]; decide) (by rw [hw]; decide) (fun k _ _ => rfl)

theorem mirrorOutpaint_h (b : Img) (m : Mask) : (mirrorOutpaint b m).h = b.h := by
  unfold mirrorOutpaint; split <;> rfl

theorem mirrorOutpaint_w (b : Img) (m : Mask) : (mirrorOutpaint b m).w = b.w := by
  unfold mirrorOutpaint; split <;> rfl

theorem harmonize_h (cand safe : Img) (g : Mask) (p : Placement) :
    (harmonizeGeneratedRegion cand safe g p).h = cand.h := by
  simp only [harmonizeGeneratedRegion]
  split
  · split <;> rfl
  · rfl

theorem harmonize_w (cand safe : Img) (g : Mask) (p : Placement) :
    (harmonizeGeneratedRegion cand safe g p).w = cand.w := by
  simp only [harmonizeGeneratedRegion]
  split
  · split <;> rfl
  · rfl

theorem buildSafeBackground_h (ops : PilOps) (st : Settings) (src rz : Img)
    (p : Placement) (tw th : Nat) :
    (buildSafeBackground ops st src rz p tw th).h = th := by
  simp only [buildSafeBackground]
  split
  · next hcond => exact hcond.2.2
  · split <;> rfl

theorem buildSafeBackground_w (ops : PilOps) (st : Settings) (src rz : Img)
    (p : Placement) (tw th : Nat) :
    (buildSafeBackground ops st src rz p tw th).w = tw := by
  simp only [buildSafeBackground]
  split
  · next hcond => exact hcond.2.1
  · split <;> rfl

theorem composeCenter_h (st : Settings) (bg rz : Img) (p : Placement) :
    (composeCenter st bg rz p).h = bg.h := by
  simp only [composeCenter]
  split
  · rfl
  · split <;> rfl

theorem composeCenter_w (st : Settings) (bg rz : Img) (p : Placement) :
    (composeCenter st bg rz p).w = bg.w := by
  simp only [composeCenter]
  split
  · rfl
  · split <;> rfl

theorem canvasSafeComposite_h (ops : PilOps) (st : Settings) (path : String) :
    (canvasSafeComposite ops st path).h = st.target_height := by
  simp only [canvasSafeComposite]
  rw [composeCenter_h, buildSafeBackground_h]

theorem canvasSafeComposite_w (ops : PilOps) (st : Settings) (path : String) :
    (canvasSafeComposite ops st path).w = st.target_width := by
  simp only [canvasSafeComposite]
  rw [composeCenter_w, buildSafeBackground_w]

theorem preserve_pix_active (base cand : Img) (m : Mask) (y x : Nat)
    (h : 0 < m.val y x) :
    (preserveProtected base cand m).pix y x = base.pix y x := by
  simp [preserveProtected, h]

theorem chanMixRound_zero (a b : Fin 256) : chanMixRound a b 0 = a := by
  unfold chanMixRound chanRound clamp255
  have hr : ((1 : ℚ) - 0) * (a.val : ℚ) + 0 * (b.val : ℚ) = ((a.val : ℕ) : ℚ) := by
    ring
  rw [hr, round_natCast]
  have h1 : (0 : ℤ) ≤ (a.val : ℤ) := Int.ofNat_nonneg _
  have h2 : ((a.val : ℤ)) ≤ 255 := by exact_mod_cast Nat.le_of_lt_succ a.isLt
  apply Fin.ext
  show ((min 255 (max 0 ((a.val : ℕ) : ℤ))).toNat) = a.val
  rw [max_eq_right h1, min_eq_right h2]
  simp

theorem pxMixRound_zero (p q : Px) : pxMixRound p q 0 = p := by
  simp [pxMixRound, chanMixRound_zero]

theorem harmonize_pix_of_inactive (cand safe : Img) (g : Mask) (p : Placement)
    (y x : Nat) (hz : g.val y x = 0) :
    (harmonizeGeneratedRegion cand safe g p).pix y x = cand.pix y x := by
  simp only [harmonizeGeneratedRegion]
  split
  · split
    · rfl
    · dsimp only
      rw [if_neg (by omega)]
      exact pxMixRound_zero _ _
  · rfl

theorem makeMasks_gen_zero_of_placement (tw th : Nat) (p : Placement) (y x : Nat)
    (h1 : p.x ≤ x) (h2 : x < p.x + p.width) :
    (makeMasks tw th p).2.val y x = 0 := by
  dsimp only [makeMasks]
  rw [if_neg (by omega)]

theorem makeMasks_prot_active_iff (tw th : Nat) (p : Placement) (y x : Nat) :
    0 < (makeMasks tw th p).1.val y x ↔
      (p.y ≤ y ∧ y < p.y + p.height ∧ p.x ≤ x ∧ x < p.x + p.width) := by
  dsimp only [makeMasks]
  split
  · next h => simp [h]
  · next h => simp [h]

/-- The protected-region check passes whenever the candidate agrees with
the base on every active mask pixel and the mask has an active pixel
(for any nonnegative ratio limit). -/
theorem protected_check_passes_of_agree (base cand : Img) (m : Mask) (mc : ℚ)
    (thr : Nat) (hmc : 0 ≤ mc)
    (hH : cand.h = base.h) (hW : cand.w = base.w)
    (hmh : m.h = base.h) (hmw : m.w = base.w)
    (hpix : ∀ y x, 0 < m.val y x → cand.pix y x = base.pix y x)
    (hact : 0 < activeCount m) :
    checkProtectedRegionUnchanged base cand m mc thr = .ok ⟨true, none⟩ := by
  unfold checkProtectedRegionUnchanged countChangedPixels
  rw [if_pos ⟨hH.symm, hW.symm⟩, if_pos ⟨hmh, hmw⟩]
  have hzero : changedCount base cand m thr = 0 := by
    unfold changedCount
    rw [Finset.card_eq_zero, Finset.filter_eq_empty_iff]
    rintro p _ ⟨hact', hdiff⟩
    rw [hpix _ _ hact', pxMaxDiff_self] at hdiff
    omega
  simp only [hzero]
  rw [if_neg (by omega)]
  rw [if_neg (by rw [Nat.cast_zero, Rat.zero_mkRat]; exact not_lt.mpr hmc)]

theorem sub_half_lt (a tw : Nat) (h1 : 1 ≤ a) (h2 : 0 < tw) : (tw - a) / 2 < tw := by
  have := Nat.div_le_self (tw - a) 2
  omega

theorem canvasPlacement_width_pos (ops : PilOps) (st : Settings) (path : String) :
    1 ≤ (canvasPlacement ops st path).width := by
  simp only [canvasPlacement, canvasResize, resizeWithAspect]
  exact le_max_left 1 _

theorem canvasPlacement_height_pos (ops : PilOps) (st : Settings) (path : String) :
    1 ≤ (canvasPlacement ops st path).height := by
  simp only [canvasPlacement, canvasResize, resizeWithAspect]
  exact le_max_left 1 _

theorem canvasPlacement_x_lt (ops : PilOps) (st : Settings) (path : String)
    (htw : 0 < st.target_width) :
    (canvasPlacement ops st path).x < st.target_width := by
  simp only [canvasPlacement, canvasResize, resizeWithAspect]
  exact sub_half_lt _ _ (le_max_left 1 _) htw

theorem canvasPlacement_y_lt (ops : PilOps) (st : Settings) (path : String)
    (hth : 0 < st.target_height) :
    (canvasPlacement ops st path).y < st.target_height := by
  simp only [canvasPlacement, canvasResize, resizeWithAspect]
  exact sub_half_lt _ _ (le_max_left 1 _) hth

theorem protMask_active_pos (tw th : Nat) (p : Placement)
    (hw1 : 1 ≤ p.width) (hh1 : 1 ≤ p.height) (hx : p.x < tw) (hy : p.y < th) :
    0 < activeCount (makeMasks tw th p).1 := by
  unfold activeCount
  rw [Finset.card_pos]
  refine ⟨(p.y, p.x), ?_⟩
  rw [Finset.mem_filter]
  refine ⟨?_, ?_⟩
  · unfold maskGrid
    rw [Finset.mem_product]
    constructor
    · show p.y ∈ Finset.range th
      exact Finset.mem_range.mpr hy
    · show p.x ∈ Finset.range tw
      exact Finset.mem_range.mpr hx
  · show 0 < (makeMasks tw th p).1.val p.y p.x
    rw [makeMasks_prot_active_iff]
    omega

theorem canvasAttempt_mirror (ops : PilOps) (st : Settings) (nat : NaturalnessCheck)
    (det : AnimalDetector) (fastMode enableAnimal : Bool) (path : String) (k : Nat)
    (htw : 0 < st.target_width) (hth : 0 < st.target_height) :
    canvasAttempt (mkCanvasCtx ops st nat .mirror det fastMode enableAnimal path) k =
      .inr { image := canvasSafeComposite ops st path
             used_outpaint := false
             adapter_name := "MirrorOutpaintAdapter"
             fallback_applied := true
             fallback_reason := some "mirror adapter selected; forced safe background fallback (generative outpaint unavailable)"
             safety_passed := true
             safety_message := "safe fallback applied (mirror output blocked)" } := by
  have hact : 0 < activeCount
      (makeMasks st.target_width st.target_height (canvasPlacement ops st path)).1 :=
    protMask_active_pos _ _ _ (canvasPlacement_width_pos ops st path)
      (canvasPlacement_height_pos ops st path)
      (canvasPlacement_x_lt ops st path htw) (canvasPlacement_y_lt ops st path hth)
  cases fastMode with
  | false =>
    have hcheck := protected_check_passes_of_agree
      (canvasSafeComposite ops st path)
      (preserveProtected (canvasSafeComposite ops st path)
        (mirrorOutpaint (canvasSafeComposite ops st path)
          (makeMasks st.target_width st.target_height (canvasPlacement ops st path)).2)
        (makeMasks st.target_width st.target_height (canvasPlacement ops st path)).1)
      (makeMasks st.target_width st.target_height (canvasPlacement ops st path)).1
      (mkRat 1 1000) 8 (by decide)
      (mirrorOutpaint_h _ _) (mirrorOutpaint_w _ _)
      (by rw [canvasSafeComposite_h]; rfl) (by rw [canvasSafeComposite_w]; rfl)
      (fun y x h => preserve_pix_active _ _ _ y x h)
      hact
    simp [canvasAttempt, mkCanvasCtx, runOutpaint, hcheck,
      OutpaintAdapter.isMirror, adapterClassName]
  | true =>
    have hpix : ∀ y x,
        0 < (makeMasks st.target_width st.target_height (canvasPlacement ops st path)).1.val y x →
        (harmonizeGeneratedRegion
          (preserveProtected (canvasSafeComposite ops st path)
            (mirrorOutpaint (canvasSafeComposite ops st path)
              (makeMasks st.target_width st.target_height (canvasPlacement ops st path)).2)
            (makeMasks st.target_width st.target_height (canvasPlacement ops st path)).1)
          (canvasSafeComposite ops st path)
          (makeMasks st.target_width st.target_height (canvasPlacement ops st path)).2
          (canvasPlacement ops st path)).pix y x =
        (canvasSafeComposite ops st path).pix y x := by
      intro y x hxy
      have hrect := (makeMasks_prot_active_iff _ _ _ y x).mp hxy
      rw [harmonize_pix_of_inactive _ _ _ _ y x
        (makeMasks_gen_zero_of_placement _ _ _ y x hrect.2.2.1 hrect.2.2.2)]
      exact preserve_pix_active _ _ _ y x hxy
    have hcheck := protected_check_passes_of_agree
      (canvasSafeComposite ops st path)
      (harmonizeGeneratedRegion
        (preserveProtected (canvasSafeComposite ops st path)
          (mirrorOutpaint (canvasSafeComposite ops st path)
            (makeMasks st.target_width st.target_height (canvasPlacement ops st path)).2)
          (makeMasks st.target_width st.target_height (canvasPlacement ops st path)).1)
        (canvasSafeComposite ops st path)
        (makeMasks st.target_width st.target_height (canvasPlacement ops st path)).2
        (canvasPlacement ops st path))
      (makeMasks st.target_width st.target_height (canvasPlacement ops st path)).1
      (mkRat 1 1000) 8 (by decide)
      (by rw [harmonize_h]; exact mirrorOutpaint_h _ _)
      (by rw [harmonize_w]; exact mirrorOutpaint_w _ _)
      (by rw [canvasSafeComposite_h]; rfl) (by rw [canvasSafeComposite_w]; rfl)
      hpix hact
    simp [canvasAttempt, mkCanvasCtx, runOutpaint, hcheck,
      OutpaintAdapter.isMirror, adapterClassName]

/-- C4: with the non-generative reference (mirror) outpaint adapter, a
photo placed narrower than the target width never ships the adapter's
output: the returned image is always the safe composite, with
`used_outpaint = false` and `fallback_applied = true` (forced fallback;
in particular whenever the protected-region check passes, which it always
does on the preserved mirror candidate). -/
theorem mirror_adapter_never_ships (ops : PilOps) (st : Settings)
    (nat : NaturalnessCheck) (det : AnimalDetector)
    (fastMode enableAnimal : Bool) (path : String)
    (htw : 0 < st.target_width) (hth : 0 < st.target_height)
    (hnarrow : (canvasPlacement ops st path).width < st.target_width) :
    (buildCanvasImage ops st nat .mirror det fastMode enableAnimal path).image =
      canvasSafeComposite ops st path ∧
    (buildCanvasImage ops st nat .mirror det fastMode enableAnimal path).used_outpaint =
      false ∧
    (buildCanvasImage ops st nat .mirror det fastMode enableAnimal path).fallback_applied =
      true := by
  unfold buildCanvasImage
  by_cases hmin :
      (canvasPlacement ops st path).width < st.outpaint_min_width_for_generation
  · rw [if_pos (Or.inr hmin)]
    exact ⟨rfl, rfl, rfl⟩
  · rw [if_neg (by omega)]
    obtain ⟨m, hm⟩ :
        ∃ m, (if fastMode then 1 else max 1 st.outpaint_max_attempts) = m + 1 := by
      split
      · exact ⟨0, rfl⟩
      · exact ⟨max 1 st.outpaint_max_attempts - 1, by omega⟩
    rw [hm]
    simp only [canvasAttemptLoop]
    rw [canvasAttempt_mirror ops st nat det fastMode enableAnimal path 1 htw hth]
    exact ⟨rfl, rfl, rfl⟩

/-- Witness for C4: a 2×2 photo on a 4×2 canvas with the mirror adapter —
the build resolves to the safe composite as a forced fallback. -/
theorem mirror_adapter_never_ships_witness :
    ((canvasPlacement opsTiny stSmall "p").width < stSmall.target_width) ∧
    ((buildCanvasImage opsTiny stSmall natAlwaysPass .mirror nullAnimalDetector
        false true "p").image = canvasSafeComposite opsTiny stSmall "p" ∧
     (buildCanvasImage opsTiny stSmall natAlwaysPass .mirror nullAnimalDetector
        false true "p").used_outpaint = false ∧
     (buildCanvasImage opsTiny stSmall natAlwaysPass .mirror nullAnimalDetector
        false true "p").fallback_applied = true) := by
  have hw : (canvasPlacement opsTiny stSmall "p").width = 2 := by decide
  refine ⟨by rw [hw]; decide, ?_⟩
  exact mirror_adapter_never_ships opsTiny stSmall natAlwaysPass nullAnimalDetector
    false true "p" (by decide) (by decide) (by rw [hw]; decide)

theorem transitionLoop_all_fail (c : TransCtx) (cb : Except String String)
    (r : Nat → String) :
    ∀ (n s : Nat) (last : String),
      (∀ k, s ≤ k → k < s + n → transitionAttempt c k = .inl (r k)) →
      transitionLoop c cb n s last =
        transitionLoop c cb 0 0 (if n = 0 then last else r (s + n - 1)) := by
  intro n
  induction n with
  | zero => intro s last _; simp [transitionLoop]
  | succ m ih =>
    intro s last h
    have h1 : transitionAttempt c s = .inl (r s) := h s le_rfl (by omega)
    have ih' := ih (s + 1) (r s) (fun k hk1 hk2 => h k (by omega) (by omega))
    simp only [transitionLoop, h1, ih']
    cases m with
    | zero => simp
    | succ m' =>
      rw [if_neg (Nat.succ_ne_zero m'), if_neg (Nat.succ_ne_zero (m' + 1))]
      have harg : s + 1 + (m' + 1) - 1 = s + (m' + 1 + 1) - 1 := by omega
      rw [harg]

/-- C10: when `build_transition_clip` exhausts all generative attempts
under a non-classic provider (each attempt recorded with its reason) and
the classical crossfade build succeeds, the returned fallback result has
`used_generative = true` even though the output came from the
non-generative classical crossfade, together with
`fallback_applied = true`, `safety_passed = false` and `fallback_reason`
equal to the last recorded failure reason. -/
theorem transition_exhaustion_marks_used_generative (ops : PilOps) (st : Settings)
    (adapter : TransitionAdapter) (det : AnimalDetector)
    (wf : List Img → String → Except String String)
    (cb : String → String → String → Int → Except String String)
    (aPath bPath outPath : String) (duration : Int)
    (prompt : String) (negPrompt : Option String)
    (r : Nat → String) (built : String)
    (hd : duration ∈ allowedTransitionDurations)
    (hp : ¬ pyStrip prompt = "")
    (hprov : ¬ pyLowerStrip st.transition_provider = "classic")
    (hfail : ∀ k, 1 ≤ k → k < 1 + max 1 st.transition_max_attempts →
      transitionAttempt
        (mkTransCtx ops st adapter det wf aPath bPath outPath duration prompt negPrompt)
        k = .inl (r k))
    (hcb : cb aPath bPath outPath duration = .ok built) :
    buildTransitionClip ops st adapter det wf cb aPath bPath outPath duration
        prompt negPrompt =
      .ok { output_path := built
            used_generative := true
            fallback_applied := true
            fallback_reason := some (r (max 1 st.transition_max_attempts))
            safety_passed := false
            safety_message := "generative attempts exhausted, classic fallback applied" } := by
  simp only [buildTransitionClip]
  rw [if_neg (not_not_intro hd), if_neg hp, if_neg hprov]
  rw [transitionLoop_all_fail
    (mkTransCtx ops st adapter det wf aPath bPath outPath duration prompt negPrompt)
    (cb aPath bPath outPath duration) r (max 1 st.transition_max_attempts) 1
    "unknown generative transition failure" hfail]
  rw [if_neg (by omega)]
  have harg : 1 + max 1 st.transition_max_attempts - 1 =
      max 1 st.transition_max_attempts := by omega
  rw [harg]
  simp only [transitionLoop, hcb]

/-- Witness for C10: an unavailable generative adapter under the `auto`
provider exhausts both attempts; the classic fallback result still says
`used_generative = true` with the last failure reason. -/
theorem transition_exhaustion_marks_used_generative_witness :
    ((6 : Int) ∈ allowedTransitionDurations) ∧
    buildTransitionClip opsTiny stAutoSmall nullTransitionAdapter
        nullAnimalDetector writeFramesOk classicBuildOk "a" "b" "o.mp4" 6 "p" none =
      .ok { output_path := "o.mp4"
            used_generative := true
            fallback_applied := true
            fallback_reason := some "generative adapter unavailable"
            safety_passed := false
            safety_message := "generative attempts exhausted, classic fallback applied" } :=
  ⟨by decide,
   transition_exhaustion_marks_used_generative opsTiny stAutoSmall
     nullTransitionAdapter nullAnimalDetector writeFramesOk classicBuildOk
     "a" "b" "o.mp4" 6 "p" none (fun _ => "generative adapter unavailable") "o.mp4"
     (by decide) (by decide) (by decide) (fun k _ _ => rfl) rfl⟩

theorem exceptMapIdx_ok_length (f : Nat → Except String Img) :
    ∀ (l : List Nat) (out : List Img), exceptMapIdx f l = .ok out →
      out.length = l.length := by
  intro l
  induction l with
  | nil => intro out h; simp [exceptMapIdx] at h; simp [← h]
  | cons i rest ih =>
    intro out h
    simp only [exceptMapIdx] at h
    cases hf : f i with
    | error e => rw [hf] at h; simp at h
    | ok v =>
      rw [hf] at h
      cases hr : exceptMapIdx f rest with
      | error e => rw [hr] at h; simp at h
      | ok tail =>
        rw [hr] at h
        simp only [Except.ok.injEq] at h
        rw [← h]
        simp [ih tail hr]

theorem get?_set_general {α : Type} (a : α) :
    ∀ (l : List α) (i j : Nat),
      (l.set i a).get? j = if i = j ∧ j < l.length then some a else l.get? j := by
  intro l
  induction l with
  | nil => intro i j; simp
  | cons x xs ih =>
    intro i j
    cases i with
    | zero =>
      cases j with
      | zero => simp
      | succ j' => simp
    | succ i' =>
      cases j with
      | zero => simp
      | succ j' =>
        simp only [List.set, List.get?, List.length_cons]
        rw [ih i' j']
        by_cases h : i' = j' ∧ j' < xs.length
        · rw [if_pos h, if_pos (by omega)]
        · rw [if_neg h, if_neg (by omega)]

theorem mkTransitionFrames_ok (gen : Nat → Img → Except String Img)
    (A B : Img) (total genStep : Nat) (fs : List Img)
    (h2 : 2 ≤ total)
    (h : mkTransitionFrames gen A B total genStep = .ok fs) :
    fs.length = total ∧ fs.get? 0 = some A ∧ fs.get? (fs.length - 1) = some B := by
  unfold mkTransitionFrames at h
  cases hm : exceptMapIdx (transitionFrameAt gen A B total genStep)
      (List.range total) with
  | error e => rw [hm] at h; simp at h
  | ok raw =>
    rw [hm] at h
    simp only [Except.ok.injEq] at h
    subst h
    have hlen : raw.length = total := by
      rw [exceptMapIdx_ok_length _ _ _ hm, List.length_range]
    refine ⟨by simp [List.length_set, hlen], ?_, ?_⟩
    · rw [get?_set_general]
      have hc1 : ¬ (raw.length - 1 = 0 ∧ 0 < (raw.set 0 A).length) := by
        simp only [List.length_set]
        omega
      rw [if_neg hc1, get?_set_general]
      have hc2 : (0 : Nat) = 0 ∧ 0 < raw.length := by omega
      rw [if_pos hc2]
    · simp only [List.length_set]
      rw [get?_set_general]
      have hc3 : raw.length - 1 = raw.length - 1 ∧
          raw.length - 1 < (raw.set 0 A).length := by
        simp only [List.length_set]
        exact ⟨trivial, by omega⟩
      rw [if_pos hc3]

/-- C3 (amended: frame rate at least 1): a successful generative attempt
of `build_transition_clip` with duration `d ∈ {6,10}` and `target_fps ≥ 1`
builds exactly `d × fps` frames, and frame 0 and the final frame are the
two input canvases exactly, regardless of what the transition-frame
adapter returned. (At `target_fps = 0` the source builds
`max(2, d·fps) = 2` frames, not `d·fps = 0`; see the counterexample.) -/
theorem transition_attempt_frame_contract (ops : PilOps) (st : Settings)
    (adapter : TransitionAdapter) (det : AnimalDetector)
    (wf : List Img → String → Except String String)
    (aPath bPath outPath : String) (d : Int) (prompt : String)
    (negPrompt : Option String) (k : Nat) (res : TransitionBuildResult)
    (fs : List Img)
    (hd : d = 6 ∨ d = 10) (hf : 1 ≤ st.target_fps)
    (h : transitionAttempt
      (mkTransCtx ops st adapter det wf aPath bPath outPath d prompt negPrompt) k =
      .inr (res, fs)) :
    fs.length = d.toNat * st.target_fps ∧
    fs.get? 0 = some (loadAndNormalize ops st aPath) ∧
    fs.get? (fs.length - 1) = some (loadAndNormalize ops st bPath) := by
  have htotal : (mkTransCtx ops st adapter det wf aPath bPath outPath d
      prompt negPrompt).totalFrames = d.toNat * st.target_fps := by
    rcases hd with rfl | rfl
    · show max 2 ((6 : Int) * (st.target_fps : Int)).toNat = (6 : Int).toNat * st.target_fps
      rw [show ((6 : Int) * (st.target_fps : Int)) =
          ((6 * st.target_fps : Nat) : Int) from by push_cast; ring,
        Int.toNat_natCast, show ((6 : Int)).toNat = 6 from rfl]
      omega
    · show max 2 ((10 : Int) * (st.target_fps : Int)).toNat = (10 : Int).toNat * st.target_fps
      rw [show ((10 : Int) * (st.target_fps : Int)) =
          ((10 * st.target_fps : Nat) : Int) from by push_cast; ring,
        Int.toNat_natCast, show ((10 : Int)).toNat = 10 from rfl]
      omega
  have h2total : 2 ≤ (mkTransCtx ops st adapter det wf aPath bPath outPath d
      prompt negPrompt).totalFrames := le_max_left 2 _
  simp only [transitionAttempt] at h
  split at h
  · simp at h
  · split at h
    · simp at h
    · split at h
      · simp at h
      · split at h
        · simp at h
        · split at h
          · simp at h
          · simp only [Sum.inr.injEq, Prod.mk.injEq] at h
            rename_i hav xF out heqF xV sOk sReason heqV hsOk xW built heqW
            obtain ⟨-, hfs⟩ := h
            subst hfs
            have hres := mkTransitionFrames_ok _ _ _ _ _ out h2total heqF
            rw [htotal] at hres
            exact hres

/-- Counterexample for C3 as stated: at `target_fps = 0` (duration 6,
available adapter, non-strict safety) the attempt succeeds with
`max(2, 6·0) = 2` frames, while the claim's `d×f` would demand 0. -/
theorem transition_attempt_fps_zero_counterexample :
    (transitionAttempt c3CtxZero 1).getRight?.map (fun p => p.2.length) = some 2 ∧
    stFpsZero.target_fps = 0 ∧ ¬ ((2 : Nat) = 6 * stFpsZero.target_fps) :=
  ⟨by decide, rfl, by decide⟩

/-- Witness for the amended C3 at duration 6, `target_fps = 1`: the
successful first attempt yields exactly 6 frames whose first and last are
the two normalized canvases. -/
theorem transition_attempt_frame_contract_witness :
    1 ≤ stFpsOne.target_fps ∧
    (c3PairOne.2.length = (6 : Int).toNat * stFpsOne.target_fps ∧
     c3PairOne.2.get? 0 = some (loadAndNormalize opsTiny stFpsOne "a") ∧
     c3PairOne.2.get? (c3PairOne.2.length - 1) =
       some (loadAndNormalize opsTiny stFpsOne "b")) :=
  ⟨by decide,
   transition_attempt_frame_contract opsTiny stFpsOne idTransitionAdapter
     nullAnimalDetector writeFramesOk "a" "b" "out.mp4" 6 "prompt" none 1
     c3PairOne.1 c3PairOne.2 (Or.inl rfl) (by decide) rfl⟩

/-- Counterexample for C1 as stated: in the spec §8 scenario run
(two 1600×900 photos, mirror outpaint adapter, unavailable detector,
6-second duration, classic transition provider) the summary's
`canvas_fallback_count` is 2, not 0: the full-width placement takes the
width-policy short-circuit, which sets `fallback_applied = true`, and the
orchestrator counts every canvas result with `fallback_applied`. -/
theorem scenario_canvas_fallback_count_not_zero :
    c1Run.toOption.map (fun r => r.1.canvas_fallback_count) = some 2 ∧
    ¬ (c1Run.toOption.map (fun r => r.1.canvas_fallback_count) = some 0) :=
  ⟨by decide, by decide⟩

/-- C1 (amended): the spec §8 scenario run returns successfully with
`canvas_fallback_count = 2` (each full-width canvas is a counted
width-policy fallback), `transition_fallback_count = 1` (classic path
forced) and `safety_failed_count = 0`. -/
theorem scenario_run_summary_counts :
    c1Run.toOption.map
      (fun r => (r.1.canvas_fallback_count, r.1.transition_fallback_count,
        r.1.safety_failed_count)) = some (2, 1, 0) := by decide

theorem requireFiles_error_of_find (ex : String → Bool) :
    ∀ (l : List String) (p : String), l.find? (fun q => !ex q) = some p →
      requireFiles ex l = .error ("input image not found: " ++ p) := by
  intro l
  induction l with
  | nil => intro p h; simp [List.find?] at h
  | cons q rest ih =>
    intro p h
    rw [List.find?] at h
    unfold requireFiles
    cases hq : ex q with
    | true =>
      rw [hq] at h
      simp only [Bool.not_true] at h
      rw [if_pos rfl]
      exact ih p h
    | false =>
      rw [hq] at h
      simp only [Bool.not_false, Option.some.injEq] at h
      rw [if_neg (by simp)]
      rw [h]

/-- C8: policy/validation errors are immediate hard failures, raised
before any retry, fallback, frame synthesis or stage execution:
`build_transition_clip` rejects a duration outside {6, 10} and a blank
prompt; `run_full_pipeline` rejects an empty image list, a blank
transition prompt, and a missing input file (first missing path). The
`Except.error` returns carry no progress trace and precede every stage
job by construction. -/
theorem policy_validation_errors_are_immediate (ops : PilOps) (st : Settings)
    (adapter : TransitionAdapter) (det : AnimalDetector)
    (wf : List Img → String → Except String String)
    (cb : String → String → String → Int → Except String String)
    (aPath bPath outPath : String) (duration : Int) (prompt : String)
    (negPrompt : Option String)
    (fileExists : String → Bool)
    (canvasJob : String → String → Except String CanvasBuildResult)
    (transitionJob : String → String → String → Int → String → Option String →
      Except String TransitionBuildResult)
    (lastClipJob : String → String → Int → String → Except String String)
    (renderJob : List String → String → Option String → ℚ → Except String String)
    (canceled : Nat → Bool)
    (imagePaths : List String) (workingDir finalOutputPath : String)
    (tDur : Int) (tPrompt : String) (tNeg : Option String)
    (lcDur : Int) (lcStyle : String) (bgm : Option String) (vol : ℚ)
    (p : String) :
    (duration ∉ allowedTransitionDurations →
      buildTransitionClip ops st adapter det wf cb aPath bPath outPath duration
        prompt negPrompt = .error "duration_seconds must be one of: 6, 10") ∧
    (duration ∈ allowedTransitionDurations → pyStrip prompt = "" →
      buildTransitionClip ops st adapter det wf cb aPath bPath outPath duration
        prompt negPrompt = .error "prompt is required for generative transition") ∧
    (runFullPipeline fileExists canvasJob transitionJob lastClipJob renderJob
      canceled [] workingDir finalOutputPath tDur tPrompt tNeg lcDur lcStyle
      bgm vol = .error "image_paths must not be empty") ∧
    (imagePaths ≠ [] → pyStrip tPrompt = "" →
      runFullPipeline fileExists canvasJob transitionJob lastClipJob renderJob
        canceled imagePaths workingDir finalOutputPath tDur tPrompt tNeg lcDur
        lcStyle bgm vol = .error "transition_prompt is required") ∧
    (¬ pyStrip tPrompt = "" → imagePaths.find? (fun q => !fileExists q) = some p →
      runFullPipeline fileExists canvasJob transitionJob lastClipJob renderJob
        canceled imagePaths workingDir finalOutputPath tDur tPrompt tNeg lcDur
        lcStyle bgm vol = .error ("input image not found: " ++ p)) := by
  refine ⟨fun hd => ?_, fun hd hp => ?_, ?_, fun hne hp => ?_, fun hp hfind => ?_⟩
  · simp only [buildTransitionClip]
    rw [if_pos hd]
  · simp only [buildTransitionClip]
    rw [if_neg (not_not_intro hd), if_pos hp]
  · rfl
  · simp only [runFullPipeline]
    rw [if_neg hne, if_pos hp]
  · have hne : imagePaths ≠ [] := by
      intro hnil
      rw [hnil] at hfind
      simp [List.find?] at hfind
    simp only [runFullPipeline]
    rw [if_neg hne, if_neg hp, requireFiles_error_of_find fileExists imagePaths p hfind]

/-- Witness for C8 at concrete inputs: duration 7 and a whitespace prompt
for the transition builder; an empty list, a whitespace prompt and an
all-missing filesystem for the orchestrator. -/
theorem policy_validation_errors_are_immediate_witness :
    buildTransitionClip opsTiny stAutoSmall nullTransitionAdapter
        nullAnimalDetector writeFramesOk classicBuildOk "a" "b" "o" 7 "p" none =
      .error "duration_seconds must be one of: 6, 10" ∧
    buildTransitionClip opsTiny stAutoSmall nullTransitionAdapter
        nullAnimalDetector writeFramesOk classicBuildOk "a" "b" "o" 6 " " none =
      .error "prompt is required for generative transition" ∧
    runFullPipeline (fun _ => true) (fun _ _ => .ok c7CanvasResult)
        (fun _ _ _ _ _ _ => .ok c7TransResult) (fun _ _ _ _ => .ok "l")
        (fun _ _ _ _ => .ok "f") (fun _ => false) [] "wd" "f" 6 "p" none 6 "none"
        none 1 = .error "image_paths must not be empty" ∧
    runFullPipeline (fun _ => true) (fun _ _ => .ok c7CanvasResult)
        (fun _ _ _ _ _ _ => .ok c7TransResult) (fun _ _ _ _ => .ok "l")
        (fun _ _ _ _ => .ok "f") (fun _ => false) ["a"] "wd" "f" 6 " " none 6
        "none" none 1 = .error "transition_prompt is required" ∧
    runFullPipeline (fun _ => false) (fun _ _ => .ok c7CanvasResult)
        (fun _ _ _ _ _ _ => .ok c7TransResult) (fun _ _ _ _ => .ok "l")
        (fun _ _ _ _ => .ok "f") (fun _ => false) ["a"] "wd" "f" 6 "p" none 6
        "none" none 1 = .error ("input image not found: " ++ "a") :=
  ⟨(policy_validation_errors_are_immediate opsTiny stAutoSmall
      nullTransitionAdapter nullAnimalDetector writeFramesOk classicBuildOk
      "a" "b" "o" 7 "p" none (fun _ => true) (fun _ _ => .ok c7CanvasResult)
      (fun _ _ _ _ _ _ => .ok c7TransResult) (fun _ _ _ _ => .ok "l")
      (fun _ _ _ _ => .ok "f") (fun _ => false) [] "wd" "f" 6 "p" none 6 "none"
      none 1 "a").1 (by decide),
   (policy_validation_errors_are_immediate opsTiny stAutoSmall
      nullTransitionAdapter nullAnimalDetector writeFramesOk classicBuildOk
      "a" "b" "o" 6 " " none (fun _ => true) (fun _ _ => .ok c7CanvasResult)
      (fun _ _ _ _ _ _ => .ok c7TransResult) (fun _ _ _ _ => .ok "l")
      (fun _ _ _ _ => .ok "f") (fun _ => false) [] "wd" "f" 6 "p" none 6 "none"
      none 1 "a").2.1 (by decide) (by decide),
   (policy_validation_errors_are_immediate opsTiny stAutoSmall
      nullTransitionAdapter nullAnimalDetector writeFramesOk classicBuildOk
      "a" "b" "o" 6 "p" none (fun _ => true) (fun _ _ => .ok c7CanvasResult)
      (fun _ _ _ _ _ _ => .ok c7TransResult) (fun _ _ _ _ => .ok "l")
      (fun _ _ _ _ => .ok "f") (fun _ => false) [] "wd" "f" 6 "p" none 6 "none"
      none 1 "a").2.2.1,
   (policy_validation_errors_are_immediate opsTiny stAutoSmall
      nullTransitionAdapter nullAnimalDetector writeFramesOk classicBuildOk
      "a" "b" "o" 6 "p" none (fun _ => true) (fun _ _ => .ok c7CanvasResult)
      (fun _ _ _ _ _ _ => .ok c7TransResult) (fun _ _ _ _ => .ok "l")
      (fun _ _ _ _ => .ok "f") (fun _ => false) ["a"] "wd" "f" 6 " " none 6
      "none" none 1 "a").2.2.2.1 (by decide) (by decide),
   (policy_validation_errors_are_immediate opsTiny stAutoSmall
      nullTransitionAdapter nullAnimalDetector writeFramesOk classicBuildOk
      "a" "b" "o" 6 "p" none (fun _ => false) (fun _ _ => .ok c7CanvasResult)
      (fun _ _ _ _ _ _ => .ok c7TransResult) (fun _ _ _ _ => .ok "l")
      (fun _ _ _ _ => .ok "f") (fun _ => false) ["a"] "wd" "f" 6 "p" none 6
      "none" none 1 "a").2.2.2.2 (by decide) (by decide)⟩

/-- The percent component of a canvas progress event. -/
theorem canvasEv_pct (n j : Nat) : evPct (canvasEv n j) = 6 + 33 * j / max 1 n := rfl

/-- The percent component of a transition progress event. -/
theorem transEv_pct (t j : Nat) : evPct (transEv t j) = 46 + 28 * j / max 1 t := rfl

/-- Canvas percents are at least 6. -/
theorem canvasEv_pct_lb (n j : Nat) : 6 ≤ evPct (canvasEv n j) := Nat.le_add_right 6 _

/-- Transition percents are at least 46. -/
theorem transEv_pct_lb (t j : Nat) : 46 ≤ evPct (transEv t j) := Nat.le_add_right 46 _

/-- Canvas percents stay at or below 38 while the image index is in range. -/
theorem canvasEv_pct_ub (n j : Nat) (h : j < n) : evPct (canvasEv n j) ≤ 38 := by
  rw [canvasEv_pct]
  have hn : max 1 n = n := by omega
  rw [hn]
  have hd : 33 * j / n < 33 := (Nat.div_lt_iff_lt_mul (by omega)).mpr (by omega)
  omega

/-- Transition percents stay at or below 73 while the clip index is in range. -/
theorem transEv_pct_ub (t j : Nat) (h : j < t) : evPct (transEv t j) ≤ 73 := by
  rw [transEv_pct]
  have ht : max 1 t = t := by omega
  rw [ht]
  have hd : 28 * j / t < 28 := (Nat.div_lt_iff_lt_mul (by omega)).mpr (by omega)
  omega

/-- Canvas percents are monotone in the image index. -/
theorem canvasEv_pct_mono (n i j : Nat) (h : i ≤ j) :
    evPct (canvasEv n i) ≤ evPct (canvasEv n j) := by
  rw [canvasEv_pct, canvasEv_pct]
  gcongr

/-- Transition percents are monotone in the clip index. -/
theorem transEv_pct_mono (t i j : Nat) (h : i ≤ j) :
    evPct (transEv t i) ≤ evPct (transEv t j) := by
  rw [transEv_pct, transEv_pct]
  gcongr

/-- Two non-decreasing percent blocks glue at a pivot value. -/
theorem pairwise_le_append_pivot (m : Nat) (l1 l2 : List Nat)
    (h1 : List.Pairwise (fun a b => a ≤ b) l1)
    (h2 : List.Pairwise (fun a b => a ≤ b) l2)
    (hb1 : ∀ x ∈ l1, x ≤ m) (hb2 : ∀ x ∈ l2, m ≤ x) :
    List.Pairwise (fun a b => a ≤ b) (l1 ++ l2) :=
  List.pairwise_append.mpr ⟨h1, h2, fun a ha b hb => le_trans (hb1 a ha) (hb2 b hb)⟩

/-- Prepending a lower bound to a non-decreasing percent block. -/
theorem pairwise_le_cons_of (a : Nat) (l : List Nat)
    (ha : ∀ x ∈ l, a ≤ x) (hl : List.Pairwise (fun x y => x ≤ y) l) :
    List.Pairwise (fun x y => x ≤ y) (a :: l) :=
  List.Pairwise.cons ha hl

/-- A monotone function mapped over `List.range` is pairwise non-decreasing. -/
theorem pairwise_le_map_range (f : Nat → Nat)
    (hf : ∀ i j, i ≤ j → f i ≤ f j) (n : Nat) :
    List.Pairwise (fun a b => a ≤ b) ((List.range n).map f) :=
  List.pairwise_map.mpr ((List.pairwise_lt_range n).imp fun h => hf _ _ (Nat.le_of_lt h))

/-- The trace of a successful canvas stage is exactly the canvas progress
events for the processed indices, in order. -/
theorem canvasStage_ok_trace
    (job : String → String → Except String CanvasBuildResult)
    (canc : Nat → Bool) (dir : String) (n : Nat) :
    ∀ (l : List String) (idx polls : Nat) (acc : CanvasAcc),
      canvasStage job canc dir n l idx polls = Except.ok acc →
      acc.trace = (List.range l.length).map (fun j => canvasEv n (idx + j)) := by
  intro l
  induction l with
  | nil =>
    intro idx polls acc h
    simp only [canvasStage] at h
    cases h
    rfl
  | cons p rest ih =>
    intro idx polls acc h
    simp only [canvasStage] at h
    split at h
    · exact Except.noConfusion h
    · split at h
      · exact Except.noConfusion h
      · split at h
        · exact Except.noConfusion h
        · rename_i res hres acc2 hrec
          cases h
          show canvasEv n idx :: acc2.trace = _
          rw [ih (idx + 1) (polls + 1) acc2 hrec]
          rw [List.length_cons, List.range_succ_eq_map, List.map_cons, List.map_map]
          congr 1
          apply List.map_congr_left
          intro j hj
          show canvasEv n (idx + 1 + j) = canvasEv n (idx + (j + 1))
          congr 1
          omega

/-- The trace of a successful transition stage is exactly the transition
progress events for the processed indices, in order. -/
theorem transStage_ok_trace
    (job : String → String → String → Int → String → Option String →
      Except String TransitionBuildResult)
    (canc : Nat → Bool) (dir : String) (cps : List String) (t : Nat)
    (dur : Int) (pr : String) (np : Option String) :
    ∀ (remaining idx polls : Nat) (acc : TransAcc),
      transStage job canc dir cps t dur pr np remaining idx polls =
        Except.ok acc →
      acc.trace = (List.range remaining).map (fun j => transEv t (idx + j)) := by
  intro remaining
  induction remaining with
  | zero =>
    intro idx polls acc h
    simp only [transStage] at h
    cases h
    rfl
  | succ rem ih =>
    intro idx polls acc h
    simp only [transStage] at h
    split at h
    · exact Except.noConfusion h
    · split at h
      · exact Except.noConfusion h
      · split at h
        · exact Except.noConfusion h
        · rename_i res hres acc2 hrec
          cases h
          show transEv t idx :: acc2.trace = _
          rw [ih (idx + 1) (polls + 1) acc2 hrec]
          rw [List.range_succ_eq_map, List.map_cons, List.map_map]
          congr 1
          apply List.map_congr_left
          intro j hj
          show transEv t (idx + 1 + j) = transEv t (idx + (j + 1))
          congr 1
          omega

/-- A successful pipeline tail appends exactly the five closing progress
events to the events accumulated so far. -/
theorem pipelineFinish_ok_trace
    (lcj : String → String → Int → String → Except String String)
    (rj : List String → String → Option String → ℚ → Except String String)
    (canc : Nat → Bool) (ld fo : String) (lcd : Int) (lcms : String)
    (bgm : Option String) (vol : ℚ) (cacc : CanvasAcc) (tacc : TransAcc)
    (ev : List Event) (s : PipelineRunSummary) (tr : List Event)
    (h : pipelineFinish lcj rj canc ld fo lcd lcms bgm vol cacc tacc ev =
      Except.ok (s, tr)) :
    tr = ev ++ [("last_clip_start", 82, some "building last clip"),
                ("last_clip_done", 90, some "last clip completed"),
                ("render_start", 92, some "building final render"),
                ("render_done", 99, some "final render completed"),
                ("completed", 100, some "pipeline completed")] := by
  simp only [pipelineFinish] at h
  split at h
  · exact Except.noConfusion h
  · split at h
    · exact Except.noConfusion h
    · split at h
      · exact Except.noConfusion h
      · split at h
        · exact Except.noConfusion h
        · cases h
          simp

/-- The last element of a list extended by five elements is the fifth. -/
theorem getLast?_append_five {α : Type} (l : List α) (a b c d e : α) :
    (l ++ [a, b, c, d, e]).getLast? = some e := by
  rw [show l ++ [a, b, c, d, e] = (l ++ [a, b, c, d]) ++ [e] by simp,
    List.getLast?_concat]

/-- C7: across one complete run of `run_full_pipeline`, the sequence of
percent values passed to the `on_progress` callback is monotonically
non-decreasing, and the final invocation reports percent 100 (the
`completed` event). -/
theorem pipeline_progress_monotone
    (fileExists : String → Bool)
    (canvasJob : String → String → Except String CanvasBuildResult)
    (transitionJob : String → String → String → Int → String → Option String →
      Except String TransitionBuildResult)
    (lastClipJob : String → String → Int → String → Except String String)
    (renderJob : List String → String → Option String → ℚ → Except String String)
    (canceled : Nat → Bool)
    (imagePaths : List String) (workingDir finalOutputPath : String)
    (transitionDuration : Int) (transitionPrompt : String)
    (transitionNegPrompt : Option String)
    (lastClipDuration : Int) (lastClipMotionStyle : String)
    (bgmPath : Option String) (bgmVolume : ℚ)
    (s : PipelineRunSummary) (tr : List Event)
    (h : runFullPipeline fileExists canvasJob transitionJob lastClipJob
      renderJob canceled imagePaths workingDir finalOutputPath
      transitionDuration transitionPrompt transitionNegPrompt lastClipDuration
      lastClipMotionStyle bgmPath bgmVolume = Except.ok (s, tr)) :
    List.Chain' (fun a b => a ≤ b) (List.map evPct tr) ∧
    tr.getLast? = some ("completed", 100, some "pipeline completed") := by
  simp only [runFullPipeline] at h
  split at h
  · exact Except.noConfusion h
  split at h
  · exact Except.noConfusion h
  split at h
  · exact Except.noConfusion h
  split at h
  · exact Except.noConfusion h
  split at h
  · exact Except.noConfusion h
  rename_i cacc hcacc
  have hct := canvasStage_ok_trace _ _ _ _ _ _ _ _ hcacc
  simp only [Nat.zero_add] at hct
  have hCBub : ∀ x ∈ List.map (evPct ∘ fun j => canvasEv imagePaths.length j)
      (List.range imagePaths.length), x ≤ 38 := by
    intro x hx
    simp only [List.mem_map, List.mem_range] at hx
    obtain ⟨i, hi, rfl⟩ := hx
    exact canvasEv_pct_ub _ _ hi
  have hCBlb : ∀ x ∈ List.map (evPct ∘ fun j => canvasEv imagePaths.length j)
      (List.range imagePaths.length), 6 ≤ x := by
    intro x hx
    simp only [List.mem_map, List.mem_range] at hx
    obtain ⟨i, hi, rfl⟩ := hx
    exact canvasEv_pct_lb _ _
  have hCB : List.Pairwise (fun a b => a ≤ b)
      (List.map (evPct ∘ fun j => canvasEv imagePaths.length j)
        (List.range imagePaths.length)) :=
    pairwise_le_map_range _ (fun i j hij => canvasEv_pct_mono _ _ _ hij) _
  split at h
  · split at h
    · exact Except.noConfusion h
    · rename_i tacc htacc
      have htt := transStage_ok_trace _ _ _ _ _ _ _ _ _ _ _ _ htacc
      simp only [Nat.zero_add] at htt
      have htr := pipelineFinish_ok_trace _ _ _ _ _ _ _ _ _ _ _ _ _ _ h
      subst htr
      rw [hct, htt]
      have hTBub : ∀ x ∈ List.map
          (evPct ∘ fun j => transEv (cacc.canvasPaths.length - 1) j)
          (List.range (cacc.canvasPaths.length - 1)), x ≤ 73 := by
        intro x hx
        simp only [List.mem_map, List.mem_range] at hx
        obtain ⟨i, hi, rfl⟩ := hx
        exact transEv_pct_ub _ _ hi
      have hTBlb : ∀ x ∈ List.map
          (evPct ∘ fun j => transEv (cacc.canvasPaths.length - 1) j)
          (List.range (cacc.canvasPaths.length - 1)), 46 ≤ x := by
        intro x hx
        simp only [List.mem_map, List.mem_range] at hx
        obtain ⟨i, hi, rfl⟩ := hx
        exact transEv_pct_lb _ _
      have hTB : List.Pairwise (fun a b => a ≤ b)
          (List.map (evPct ∘ fun j => transEv (cacc.canvasPaths.length - 1) j)
            (List.range (cacc.canvasPaths.length - 1))) :=
        pairwise_le_map_range _ (fun i j hij => transEv_pct_mono _ _ _ hij) _
      constructor
      · simp only [List.map_append, List.map_cons, List.map_nil, List.map_map,
          List.append_assoc, List.cons_append, List.nil_append, evPct]
        have hTail : List.Pairwise (fun a b : Nat => a ≤ b)
            ([75, 82, 90, 92, 99, 100] : List Nat) := by decide
        have hTaillb : ∀ x ∈ ([75, 82, 90, 92, 99, 100] : List Nat),
            (75 : Nat) ≤ x := by decide
        have hTB5 : List.Pairwise (fun a b : Nat => a ≤ b)
            (List.map (evPct ∘ fun j => transEv (cacc.canvasPaths.length - 1) j)
              (List.range (cacc.canvasPaths.length - 1)) ++
              ([75, 82, 90, 92, 99, 100] : List Nat)) :=
          pairwise_le_append_pivot 75 _ _ hTB hTail
            (fun x hx => le_trans (hTBub x hx) (by omega)) hTaillb
        have hAfter : ∀ x ∈ (40 :: 45 ::
            (List.map (evPct ∘ fun j => transEv (cacc.canvasPaths.length - 1) j)
              (List.range (cacc.canvasPaths.length - 1)) ++
              ([75, 82, 90, 92, 99, 100] : List Nat))), 40 ≤ x := by
          intro x hx
          rcases List.mem_cons.mp hx with rfl | hx
          · omega
          rcases List.mem_cons.mp hx with rfl | hx
          · omega
          rcases List.mem_append.mp hx with hx | hx
          · exact le_trans (by omega) (hTBlb x hx)
          · exact le_trans (by omega) (hTaillb x hx)
        have h45 : List.Pairwise (fun a b : Nat => a ≤ b) (45 ::
            (List.map (evPct ∘ fun j => transEv (cacc.canvasPaths.length - 1) j)
              (List.range (cacc.canvasPaths.length - 1)) ++
              ([75, 82, 90, 92, 99, 100] : List Nat))) :=
          pairwise_le_cons_of _ _
            (fun x hx => le_trans (by omega : (45 : Nat) ≤ 40 + 5) (by
              rcases List.mem_append.mp hx with hx | hx
              · exact le_trans (by omega) (hTBlb x hx)
              · exact le_trans (by omega) (hTaillb x hx))) hTB5
        have hMain : List.Pairwise (fun a b : Nat => a ≤ b)
            (List.map (evPct ∘ fun j => canvasEv imagePaths.length j)
              (List.range imagePaths.length) ++ 40 :: 45 ::
              (List.map (evPct ∘ fun j => transEv (cacc.canvasPaths.length - 1) j)
                (List.range (cacc.canvasPaths.length - 1)) ++
                ([75, 82, 90, 92, 99, 100] : List Nat))) :=
          pairwise_le_append_pivot 40 _ _ hCB
            (pairwise_le_cons_of _ _ (fun x hx => by
              rcases List.mem_cons.mp hx with rfl | hx
              · omega
              rcases List.mem_append.mp hx with hx | hx
              · exact le_trans (by omega) (hTBlb x hx)
              · exact le_trans (by omega) (hTaillb x hx)) h45)
            (fun x hx => le_trans (hCBub x hx) (by omega)) hAfter
        exact List.Pairwise.chain'
          (pairwise_le_cons_of _ _
            (fun x hx => by
              rcases List.mem_cons.mp hx with rfl | hx
              · omega
              rcases List.mem_append.mp hx with hx | hx
              · exact le_trans (by omega : (1:Nat) ≤ 6) (hCBlb x hx)
              · exact le_trans (by omega : (1:Nat) ≤ 40) (hAfter x hx))
            (pairwise_le_cons_of _ _
              (fun x hx => by
                rcases List.mem_append.mp hx with hx | hx
                · exact le_trans (by omega) (hCBlb x hx)
                · exact le_trans (by omega : (5:Nat) ≤ 40) (hAfter x hx))
              hMain))
      · exact getLast?_append_five _ _ _ _ _ _
  · have htr := pipelineFinish_ok_trace _ _ _ _ _ _ _ _ _ _ _ _ _ _ h
    subst htr
    rw [hct]
    constructor
    · simp only [List.map_append, List.map_cons, List.map_nil, List.map_map,
        List.append_assoc, List.cons_append, List.nil_append, evPct]
      have hTail : List.Pairwise (fun a b : Nat => a ≤ b)
          ([40, 75, 82, 90, 92, 99, 100] : List Nat) := by decide
      have hTaillb : ∀ x ∈ ([40, 75, 82, 90, 92, 99, 100] : List Nat),
          (40 : Nat) ≤ x := by decide
      have hMain : List.Pairwise (fun a b : Nat => a ≤ b)
          (List.map (evPct ∘ fun j => canvasEv imagePaths.length j)
            (List.range imagePaths.length) ++
            ([40, 75, 82, 90, 92, 99, 100] : List Nat)) :=
        pairwise_le_append_pivot 40 _ _ hCB hTail
          (fun x hx => le_trans (hCBub x hx) (by omega)) hTaillb
      exact List.Pairwise.chain'
        (pairwise_le_cons_of _ _
          (fun x hx => by
            rcases List.mem_cons.mp hx with rfl | hx
            · omega
            rcases List.mem_append.mp hx with hx | hx
            · exact le_trans (by omega) (hCBlb x hx)
            · exact le_trans (by omega : (1:Nat) ≤ 40) (hTaillb x hx))
          (pairwise_le_cons_of _ _
            (fun x hx => by
              rcases List.mem_append.mp hx with hx | hx
              · exact le_trans (by omega) (hCBlb x hx)
              · exact le_trans (by omega : (5:Nat) ≤ 40) (hTaillb x hx))
            hMain))
    · exact getLast?_append_five _ _ _ _ _ _

/-- Concrete instantiation of the progress-monotonicity theorem on the
three-image run `c7Run` with trivial stage jobs. -/
theorem pipeline_progress_monotone_witness :
    runFullPipeline (fun _ => true) (fun _ _ => Except.ok c7CanvasResult)
        (fun _ _ _ _ _ _ => Except.ok c7TransResult)
        (fun _ _ _ _ => Except.ok "last.mp4")
        (fun _ _ _ _ => Except.ok "final.mp4") (fun _ => false)
        ["x.jpg", "y.jpg", "z.jpg"] "wd" "f.mp4" 6 "p" none 6 "none" none 1 =
      Except.ok (c7Pair.1, c7Pair.2) ∧
    (List.Chain' (fun a b => a ≤ b) (List.map evPct c7Pair.2) ∧
     c7Pair.2.getLast? = some ("completed", 100, some "pipeline completed")) :=
  ⟨rfl,
   pipeline_progress_monotone (fun _ => true) (fun _ _ => Except.ok c7CanvasResult)
     (fun _ _ _ _ _ _ => Except.ok c7TransResult)
     (fun _ _ _ _ => Except.ok "last.mp4")
     (fun _ _ _ _ => Except.ok "final.mp4") (fun _ => false)
     ["x.jpg", "y.jpg", "z.jpg"] "wd" "f.mp4" 6 "p" none 6 "none" none 1
     c7Pair.1 c7Pair.2 rfl⟩
